import Mathlib

/-!
# curl_fuzzer.cc: a shallow embedding

The harness entry point `LLVMFuzzerTestOneInput`, the byte conversions, the
session teardown and the transfer loop of `curl_fuzzer.cc`, as pure Lean
functions.  Every call that leaves the file (libcurl, libc, the TLV decoder
of the harness) is answered by an explicit environment value and logged in
a list of events, so that statements about "what is called, in which order"
are statements about that list.
-/

namespace CurlFuzzer

/-! ## Machine integers -/

/-- A byte, the C type `uint8_t`. -/
abbrev uint8_t := Fin 256

/-- Value of a mathematical integer stored in a 32-bit two's complement `int`. -/
def wrap_int (z : Int) : Int := (z + 2147483648) % 4294967296 - 2147483648

/-- The expression `x << k` on an `int` operand (the promoted byte). -/
def shl_int (x : Int) (k : Nat) : Int := wrap_int (x * 2 ^ k)

/-- The expression `x + y` on `int` operands. -/
def add_int (x y : Int) : Int := wrap_int (x + y)

/-- The function `to_u32`: each byte is promoted to `int`, shifted, the four terms are
added as `int`, and the sum is converted to `uint32_t` by the assignment. -/
def to_u32 (b : Fin 4 → uint8_t) : Nat :=
  let s : Int :=
    add_int (add_int (add_int (shl_int (b 0).val 24) (shl_int (b 1).val 16))
      (shl_int (b 2).val 8)) (b 3).val
  (s % 4294967296).toNat

/-- The function `to_u16`: same scheme with two bytes, the sum converted to `uint16_t`. -/
def to_u16 (b : Fin 2 → uint8_t) : Nat :=
  let s : Int := add_int (shl_int (b 0).val 8) (b 1).val
  (s % 65536).toNat

/-! ## The session (`FUZZ_DATA`) -/

/-- Modelled from the spec: the socket state of `curl_fuzzer.h` (not in this
file), "one of {CLOSED, OPEN, SHUTDOWN}", CLOSED being the initial state
that a zeroed session is in. -/
inductive FUZZ_SOCK_STATE where
  | FUZZ_SOCK_CLOSED
  | FUZZ_SOCK_OPEN
  | FUZZ_SOCK_SHUTDOWN
  deriving DecidableEq, Repr

open FUZZ_SOCK_STATE

/-- One slot of the response table: `none` is a NULL `data` pointer, `some d`
a buffer of `d.length` bytes (`data_len`). -/
abbrev FUZZ_RESPONSE := Option (List uint8_t)

/-- The fields of `FUZZ_DATA` that this file touches.  Pointers are `Option`
addresses, `none` being NULL.  `responses` is the table seen as memory: the
value found at every index, the index itself being logged at each access. -/
structure FUZZ_DATA where
  easy : Option Nat
  state_data : List uint8_t
  state_data_len : Nat
  server_fd : Int
  server_fd_state : FUZZ_SOCK_STATE
  postfields : Option Nat
  connect_to_list : Option Nat
  header_list : Option Nat
  mail_recipients_list : Option Nat
  mime : Option Nat
  responses : Nat → FUZZ_RESPONSE
  response_index : Nat

/-- The session after `memset(&fuzz, 0, sizeof(FUZZ_DATA))`. -/
def FUZZ_DATA.zeroed : FUZZ_DATA where
  easy := none
  state_data := []
  state_data_len := 0
  server_fd := 0
  server_fd_state := FUZZ_SOCK_CLOSED
  postfields := none
  connect_to_list := none
  header_list := none
  mail_recipients_list := none
  mime := none
  responses := fun _ => none
  response_index := 0

/-- Options given to `curl_easy_setopt` in this file. -/
inductive CURLoption where
  | CURLOPT_OPENSOCKETFUNCTION
  | CURLOPT_OPENSOCKETDATA
  | CURLOPT_SOCKOPTFUNCTION
  | CURLOPT_READFUNCTION
  | CURLOPT_READDATA
  | CURLOPT_WRITEFUNCTION
  | CURLOPT_WRITEDATA
  | CURLOPT_COOKIEJAR
  | CURLOPT_TIMEOUT_MS
  | CURLOPT_VERBOSE
  | CURLOPT_CONNECT_TO
  | CURLOPT_HTTPHEADER
  | CURLOPT_MAIL_RCPT
  | CURLOPT_MIMEPOST
  deriving DecidableEq, Repr

open CURLoption

/-- What the program does to the outside, in order.  The first group are the
harness functions called from `LLVMFuzzerTestOneInput`, logged at the call;
the others are libcurl and libc calls and the accesses to the response
table (`response_data`, `response_data_len`: lines 386 and 387,
`response_peek`: the look-ahead of line 402). -/
inductive Ev where
  | fuzz_initialize_fuzz_data
  | fuzz_get_first_tlv
  | fuzz_get_next_tlv
  | fuzz_parse_tlv
  | fuzz_set_easy_options
  | fuzz_handle_transfer
  | fuzz_terminate_fuzz_data
  | fuzz_send_next_response
  | curl_easy_init
  | curl_easy_setopt (opt : CURLoption)
  | curl_slist_append
  | free (p : Nat)
  | close (fd : Int)
  | curl_slist_free_all (p : Nat)
  | curl_mime_free (p : Nat)
  | curl_easy_cleanup (p : Nat)
  | curl_multi_init
  | curl_multi_add_handle
  | curl_multi_fdset
  | select (rc : Int)
  | curl_multi_perform
  | curl_multi_remove_handle
  | curl_multi_cleanup
  | read (fd : Int)
  | response_data (i : Nat)
  | response_data_len (i : Nat)
  | response_peek (i : Nat)
  | write (fd : Int) (slot : Nat) (data : List uint8_t)
  | shutdown (fd : Int)
  deriving DecidableEq, Repr

/-! ## Teardown -/

/-- The function `fuzz_free` on one pointer variable: frees and clears it when set. -/
def fuzz_free (ptr : Option Nat) : Option Nat × List Ev :=
  match ptr with
  | some p => (none, [Ev.free p])
  | none => (none, [])

/-- The function `fuzz_terminate_fuzz_data`: the session after the call and the releases
made, in program order. -/
def fuzz_terminate_fuzz_data (fuzz : FUZZ_DATA) : FUZZ_DATA × List Ev :=
  let r0 := fuzz_free fuzz.postfields
  let fuzz := { fuzz with postfields := r0.1 }
  let e0 := r0.2
  let (fuzz, e1) :=
    if fuzz.server_fd_state ≠ FUZZ_SOCK_CLOSED then
      ({ fuzz with server_fd_state := FUZZ_SOCK_CLOSED }, [Ev.close fuzz.server_fd])
    else (fuzz, [])
  let (fuzz, e2) :=
    match fuzz.connect_to_list with
    | some p => ({ fuzz with connect_to_list := none }, [Ev.curl_slist_free_all p])
    | none => (fuzz, [])
  let (fuzz, e3) :=
    match fuzz.header_list with
    | some p => ({ fuzz with header_list := none }, [Ev.curl_slist_free_all p])
    | none => (fuzz, [])
  let (fuzz, e4) :=
    match fuzz.mail_recipients_list with
    | some p => ({ fuzz with mail_recipients_list := none }, [Ev.curl_slist_free_all p])
    | none => (fuzz, [])
  let (fuzz, e5) :=
    match fuzz.mime with
    | some p => ({ fuzz with mime := none }, [Ev.curl_mime_free p])
    | none => (fuzz, [])
  let (fuzz, e6) :=
    match fuzz.easy with
    | some p => ({ fuzz with easy := none }, [Ev.curl_easy_cleanup p])
    | none => (fuzz, [])
  (fuzz, e0 ++ e1 ++ e2 ++ e3 ++ e4 ++ e5 ++ e6)

/-! ## Constants of `curl_fuzzer.h` -/

/-- The constants that `curl_fuzzer.cc` takes from `curl_fuzzer.h`, a file
that is not part of this development: they are parameters of the model. -/
structure Header where
  /-- the value of `sizeof(TLV_RAW)` -/
  sizeof_TLV_RAW : Nat
  /-- the value of `TLV_RC_NO_MORE_TLVS` -/
  TLV_RC_NO_MORE_TLVS : Int
  /-- the value of `TLV_MAX_NUM_RESPONSES` -/
  TLV_MAX_NUM_RESPONSES : Nat
  /-- the code that `FCHECK` stores in `rc` when its condition is false -/
  FCHECK_rc : Int

/-- The code `CURLM_OK` of libcurl. -/
def CURLM_OK : Int := 0

/-! ## The transfer loop -/

/-- What the outside answers during one pass through the body of the
`do ... while` loop of `fuzz_handle_transfer`.  An answer that the pass does
not ask for is ignored. -/
structure IterOutcome where
  /-- return code of `curl_multi_fdset` -/
  fdset_mc : Int
  /-- return value of `select` -/
  select_rc : Int
  /-- whether `select` reports the server descriptor readable -/
  server_readable : Bool
  /-- how many `read` calls of the drain loop return data before one
  returns a value `<= 0` -/
  drain : Nat
  /-- return value of `write` -/
  write_ret : Int
  /-- the value `some fd` when `curl_multi_perform` runs the socket-creation hook,
  `fd` being the descriptor the harness would keep -/
  opens_socket : Option Int

/-- The answers for a whole run of the loop: `running` are the passes after
which `curl_multi_perform` leaves `still_running` non-zero, `final` is the
pass after which it leaves it zero.  A pass that breaks out of the loop ends
the run and the remaining answers are not used. -/
structure EngineScript where
  running : List IterOutcome
  final : IterOutcome

/-- The test `FD_ISSET(fuzz->server_fd, &fdread)` after `select`: the descriptor is in
the set only when `select` reported descriptors ready (a positive return
value) and this one is among them; on a timeout `select` empties the sets. -/
def FD_ISSET_server (o : IterOutcome) : Bool :=
  decide (0 < o.select_rc) && o.server_readable

/-- Modelled from the spec: the socket-creation hook `fuzz_open_socket` (not in
this file), "transition CLOSED → OPEN", "`open` only reachable from CLOSED":
it keeps descriptor `fd` and opens the emulated socket when the socket is
closed and does nothing otherwise. -/
def fuzz_open_socket (fd : Int) (fuzz : FUZZ_DATA) : FUZZ_DATA :=
  if fuzz.server_fd_state = FUZZ_SOCK_CLOSED then
    { fuzz with server_fd := fd, server_fd_state := FUZZ_SOCK_OPEN }
  else fuzz

/-- Result of `fuzz_send_next_response`. -/
structure SendResult where
  rc : Int
  fuzz : FUZZ_DATA
  events : List Ev

/-- The function `fuzz_send_next_response`: drain the client's bytes, write the slot at
`response_index` when it is not NULL, advance the index, and shut the
socket down for writing when the index is past the table or the next slot
is NULL (the `||` does not evaluate its right side when the left holds). -/
def fuzz_send_next_response (h : Header) (o : IterOutcome) (fuzz : FUZZ_DATA) :
    SendResult :=
  let drained := List.replicate (o.drain + 1) (Ev.read fuzz.server_fd)
  let idx := fuzz.response_index
  let data := fuzz.responses idx
  let fetched := [Ev.response_data idx, Ev.response_data_len idx]
  let (rc, written) : Int × List Ev :=
    match data with
    | some d =>
      (if o.write_ret ≠ (d.length : Int) then (-1 : Int) else 0,
        [Ev.write fuzz.server_fd idx d])
    | none => (0, [])
  let fuzz := { fuzz with response_index := idx + 1 }
  if fuzz.response_index > h.TLV_MAX_NUM_RESPONSES then
    { rc := rc
      fuzz := { fuzz with server_fd_state := FUZZ_SOCK_SHUTDOWN }
      events := drained ++ fetched ++ written ++ [Ev.shutdown fuzz.server_fd] }
  else if fuzz.responses fuzz.response_index = none then
    { rc := rc
      fuzz := { fuzz with server_fd_state := FUZZ_SOCK_SHUTDOWN }
      events := drained ++ fetched ++ written ++
        [Ev.response_peek fuzz.response_index, Ev.shutdown fuzz.server_fd] }
  else
    { rc := rc
      fuzz := fuzz
      events := drained ++ fetched ++ written ++ [Ev.response_peek fuzz.response_index] }

/-- The local variables of `fuzz_handle_transfer` that live across passes,
with the session. -/
structure LoopState where
  fuzz : FUZZ_DATA
  rc : Int
  double_timeout : Int

/-- How a pass through the loop body ends: at one of the four `break`s, or
at the `while(still_running)` test. -/
inductive BodyEnd where
  | break_fdset
  | break_select
  | break_double_timeout
  | break_send
  | at_while
  deriving DecidableEq, Repr

/-- Result of one pass through the loop body. -/
structure BodyResult where
  ending : BodyEnd
  state : LoopState
  events : List Ev

/-- The effect of `curl_multi_perform` on the session: the engine may run the
socket-creation hook during the step. -/
def curl_multi_perform (o : IterOutcome) (fuzz : FUZZ_DATA) : FUZZ_DATA :=
  match o.opens_socket with
  | some fd => fuzz_open_socket fd fuzz
  | none => fuzz

/-- One pass through the body of the `do ... while` loop (lines 279-343). -/
def transfer_body (h : Header) (o : IterOutcome) (st : LoopState) : BodyResult :=
  if o.fdset_mc ≠ CURLM_OK then
    { ending := BodyEnd.break_fdset
      state := { st with rc := -1 }
      events := [Ev.curl_multi_fdset] }
  else
    let st := { st with rc := o.select_rc }
    let ev := [Ev.curl_multi_fdset, Ev.select o.select_rc]
    if st.rc = -1 then
      { ending := BodyEnd.break_select, state := st, events := ev }
    else if st.rc = 0 ∧ st.double_timeout = 1 then
      { ending := BodyEnd.break_double_timeout, state := st, events := ev }
    else
      let st := { st with double_timeout := if st.rc = 0 then 1 else 0 }
      if st.fuzz.server_fd_state = FUZZ_SOCK_OPEN ∧ FD_ISSET_server o = true then
        let r := fuzz_send_next_response h o st.fuzz
        let st := { st with fuzz := r.fuzz, rc := r.rc }
        let ev := ev ++ Ev.fuzz_send_next_response :: r.events
        if st.rc ≠ 0 then
          { ending := BodyEnd.break_send, state := st, events := ev }
        else
          { ending := BodyEnd.at_while
            state := { st with fuzz := curl_multi_perform o st.fuzz }
            events := ev ++ [Ev.curl_multi_perform] }
      else
        { ending := BodyEnd.at_while
          state := { st with fuzz := curl_multi_perform o st.fuzz }
          events := ev ++ [Ev.curl_multi_perform] }

/-- Result of the loop and of `fuzz_handle_transfer`: the value returned, the
session, the events, and how the last pass ended. -/
structure TransferResult where
  rc : Int
  fuzz : FUZZ_DATA
  events : List Ev
  ending : BodyEnd

/-- The `do ... while(still_running)` loop: the passes of `running` go on to
the next pass when they reach the `while` test, the pass of `final` leaves
the loop there. -/
def transfer_loop (h : Header) (final : IterOutcome) :
    List IterOutcome → LoopState → TransferResult
  | [], st =>
    let b := transfer_body h final st
    { rc := b.state.rc, fuzz := b.state.fuzz, events := b.events, ending := b.ending }
  | o :: os, st =>
    let b := transfer_body h o st
    match b.ending with
    | BodyEnd.at_while =>
      let r := transfer_loop h final os b.state
      { r with events := b.events ++ r.events }
    | _ =>
      { rc := b.state.rc, fuzz := b.state.fuzz, events := b.events, ending := b.ending }

/-- The function `fuzz_handle_transfer`. -/
def fuzz_handle_transfer (h : Header) (s : EngineScript) (fuzz : FUZZ_DATA) :
    TransferResult :=
  let fuzz := { fuzz with response_index := 1 }
  let r := transfer_loop h s.final s.running { fuzz := fuzz, rc := 0, double_timeout := 0 }
  { r with events :=
      [Ev.curl_multi_init, Ev.curl_multi_add_handle] ++ r.events ++
        [Ev.curl_multi_remove_handle, Ev.curl_multi_cleanup] }

/-! ## Set-up of the session -/

/-- One record that a TLV fetch returns, seen through what `fuzz_parse_tlv`
(not in this file) does with it. -/
structure TlvRecord where
  /-- return code of `fuzz_parse_tlv` on this record -/
  rc : Int
  /-- what `fuzz_parse_tlv` does to the session on this record -/
  apply : FUZZ_DATA → FUZZ_DATA

/-- The behaviour of `fuzz_get_first_tlv`, `fuzz_get_next_tlv` and
`fuzz_parse_tlv` (none of them in this file) on one buffer: the records that
the successive fetches return with code 0, each with what parsing it does,
and the non-zero code `end_rc` of the fetch that follows the last record.
The buffer is finite, so the records are finitely many. -/
structure TlvStream where
  records : List TlvRecord
  end_rc : Int
  end_rc_ne : end_rc ≠ 0

/-- The answers of everything outside `curl_fuzzer.cc`. -/
structure Env where
  /-- the result of `curl_easy_init()`: a handle or NULL -/
  easy_init : Option Nat
  /-- return code of `curl_easy_setopt` for each option -/
  setopt : CURLoption → Int
  /-- whether `getenv("FUZZ_VERBOSE")` is not NULL -/
  verbose : Bool
  /-- the result of `curl_slist_append(NULL, ...)`: a list or NULL -/
  slist_append : Option Nat
  /-- the TLV decoder and dispatcher on a given buffer and length -/
  tlv : List uint8_t → Nat → TlvStream
  /-- the transfer engine -/
  engine : EngineScript

/-- Result of a function with an `rc` and the `EXIT_LABEL` scheme. -/
structure RcResult where
  rc : Int
  fuzz : FUZZ_DATA
  events : List Ev

/-- The function `fuzz_initialize_fuzz_data`.  `FCHECK(cond)` stores `FCHECK_rc` in `rc` and
jumps to `EXIT_LABEL` when `cond` is false. -/
def fuzz_initialize_fuzz_data (h : Header) (env : Env) (_fuzz : FUZZ_DATA)
    (data : List uint8_t) (data_len : Nat) : RcResult :=
  let fuzz := FUZZ_DATA.zeroed
  let fuzz := { fuzz with easy := env.easy_init }
  if fuzz.easy = none then
    { rc := h.FCHECK_rc, fuzz := fuzz, events := [Ev.curl_easy_init] }
  else
    { rc := 0
      fuzz := { fuzz with
        state_data := data, state_data_len := data_len,
        server_fd_state := FUZZ_SOCK_CLOSED }
      events := [Ev.curl_easy_init] }

/-- Modelled from the spec: the macro `FTRY` of `curl_fuzzer.h` (not in this
file) around `curl_easy_setopt` calls, "a configuration-call failure
propagates as a hard decode failure": the calls are made in order, the first
non-zero code is stored in `rc` and ends the sequence (jump to `EXIT_LABEL`). -/
def ftry_setopts (env : Env) : List CURLoption → Int × List Ev
  | [] => (0, [])
  | opt :: opts =>
    if env.setopt opt ≠ 0 then (env.setopt opt, [Ev.curl_easy_setopt opt])
    else
      let r := ftry_setopts env opts
      (r.1, Ev.curl_easy_setopt opt :: r.2)

/-- The options that `fuzz_set_easy_options` sets before it builds the
connect-to list, in program order. -/
def standard_options (env : Env) : List CURLoption :=
  [CURLOPT_OPENSOCKETFUNCTION, CURLOPT_OPENSOCKETDATA, CURLOPT_SOCKOPTFUNCTION,
    CURLOPT_READFUNCTION, CURLOPT_READDATA, CURLOPT_WRITEFUNCTION, CURLOPT_WRITEDATA,
    CURLOPT_COOKIEJAR, CURLOPT_TIMEOUT_MS] ++
  (if env.verbose then [CURLOPT_VERBOSE] else [])

/-- The function `fuzz_set_easy_options`. -/
def fuzz_set_easy_options (env : Env) (fuzz : FUZZ_DATA) : RcResult :=
  let r := ftry_setopts env (standard_options env)
  if r.1 ≠ 0 then
    { rc := r.1, fuzz := fuzz, events := r.2 }
  else
    let fuzz := { fuzz with connect_to_list := env.slist_append }
    { rc := env.setopt CURLOPT_CONNECT_TO
      fuzz := fuzz
      events := r.2 ++ [Ev.curl_slist_append, Ev.curl_easy_setopt CURLOPT_CONNECT_TO] }

/-! ## The entry point -/

/-- How the `for` loop over the TLVs of `LLVMFuzzerTestOneInput` is left:
by the `goto` of a failed parse, or by its condition with the code of the
last fetch in `tlv_rc`. -/
inductive TlvLoopEnd where
  | parse_failed
  | fetched (tlv_rc : Int)
  deriving DecidableEq, Repr

/-- Result of the TLV loop. -/
structure TlvLoopResult where
  ending : TlvLoopEnd
  rc : Int
  fuzz : FUZZ_DATA
  events : List Ev

/-- The `for` loop of `LLVMFuzzerTestOneInput` from the test of its condition
after a fetch, the argument being the records that the fetches still return
(the first of them is the one just fetched); with none left, the fetch just
made returned `end_rc`. -/
def tlv_loop (end_rc : Int) : List TlvRecord → FUZZ_DATA → TlvLoopResult
  | [], fuzz =>
    { ending := TlvLoopEnd.fetched end_rc, rc := 0, fuzz := fuzz, events := [] }
  | t :: ts, fuzz =>
    let fuzz := t.apply fuzz
    if t.rc ≠ 0 then
      { ending := TlvLoopEnd.parse_failed, rc := t.rc, fuzz := fuzz,
        events := [Ev.fuzz_parse_tlv] }
    else
      let r := tlv_loop end_rc ts fuzz
      { r with events := Ev.fuzz_parse_tlv :: Ev.fuzz_get_next_tlv :: r.events }

/-- The `curl_easy_setopt` calls of lines 76-86, for the lists and the mime
structure gathered from the TLVs. -/
def accumulated_options (fuzz : FUZZ_DATA) : List Ev :=
  (if fuzz.header_list ≠ none then [Ev.curl_easy_setopt CURLOPT_HTTPHEADER] else []) ++
  (if fuzz.mail_recipients_list ≠ none then [Ev.curl_easy_setopt CURLOPT_MAIL_RCPT] else []) ++
  (if fuzz.mime ≠ none then [Ev.curl_easy_setopt CURLOPT_MIMEPOST] else [])

/-- Result of `LLVMFuzzerTestOneInput`: the value returned, all events, the
session as handed to `fuzz_terminate_fuzz_data` and as left by it. -/
structure RunResult where
  ret : Int
  events : List Ev
  at_teardown : FUZZ_DATA
  final : FUZZ_DATA

/-- The part of `LLVMFuzzerTestOneInput` before `EXIT_LABEL`: the session and
the events at the moment the label is reached. -/
def before_exit_label (h : Header) (env : Env) (data : List uint8_t) (size : Nat) :
    FUZZ_DATA × List Ev :=
  let fuzz := FUZZ_DATA.zeroed
  if size < h.sizeof_TLV_RAW then (fuzz, [])
  else
    let i := fuzz_initialize_fuzz_data h env fuzz data size
    let ev := Ev.fuzz_initialize_fuzz_data :: i.events
    if i.rc ≠ 0 then (i.fuzz, ev)
    else
      let l := tlv_loop (env.tlv data size).end_rc (env.tlv data size).records i.fuzz
      let ev := ev ++ Ev.fuzz_get_first_tlv :: l.events
      match l.ending with
      | TlvLoopEnd.parse_failed => (l.fuzz, ev)
      | TlvLoopEnd.fetched tlv_rc =>
        if tlv_rc ≠ h.TLV_RC_NO_MORE_TLVS then (l.fuzz, ev)
        else
          let o := fuzz_set_easy_options env l.fuzz
          let ev := ev ++ Ev.fuzz_set_easy_options :: o.events
          if o.rc ≠ 0 then (o.fuzz, ev)
          else
            let ev := ev ++ accumulated_options o.fuzz
            let t := fuzz_handle_transfer h env.engine o.fuzz
            (t.fuzz, ev ++ Ev.fuzz_handle_transfer :: t.events)

/-- The function `LLVMFuzzerTestOneInput`, for a buffer `data` of `size` bytes. -/
def LLVMFuzzerTestOneInput (h : Header) (env : Env) (data : List uint8_t) (size : Nat) :
    RunResult :=
  let b := before_exit_label h env data size
  let t := fuzz_terminate_fuzz_data b.1
  { ret := 0
    events := b.2 ++ Ev.fuzz_terminate_fuzz_data :: t.2
    at_teardown := b.1
    final := t.1 }

/-! ## The phases of a run

The calls that `LLVMFuzzerTestOneInput` makes when it gets that far, each on
the session left by the one before. -/

/-- The call `fuzz_initialize_fuzz_data(&fuzz, data, size)`. -/
def init_phase (h : Header) (env : Env) (data : List uint8_t) (size : Nat) : RcResult :=
  fuzz_initialize_fuzz_data h env FUZZ_DATA.zeroed data size

/-- The `for` loop over the TLVs, run after a successful initialisation. -/
def tlv_phase (h : Header) (env : Env) (data : List uint8_t) (size : Nat) : TlvLoopResult :=
  tlv_loop (env.tlv data size).end_rc (env.tlv data size).records (init_phase h env data size).fuzz

/-- The call `fuzz_set_easy_options(&fuzz)` after the TLV loop. -/
def options_phase (h : Header) (env : Env) (data : List uint8_t) (size : Nat) : RcResult :=
  fuzz_set_easy_options env (tlv_phase h env data size).fuzz

/-- The call `fuzz_handle_transfer(&fuzz)` after the options. -/
def transfer_phase (h : Header) (env : Env) (data : List uint8_t) (size : Nat) :
    TransferResult :=
  fuzz_handle_transfer h env.engine (options_phase h env data size).fuzz

/-! ## Observations on event lists -/

/-- The slot that an event takes from the response table to send it. -/
def Ev.consumed_slot : Ev → Option Nat
  | Ev.response_data i => some i
  | _ => none

/-- The slot whose bytes an event writes to the emulated socket. -/
def Ev.written_slot : Ev → Option Nat
  | Ev.write _ slot _ => some slot
  | _ => none

/-- The index at which an event reads `fuzz->responses[...]`. -/
def Ev.table_index : Ev → Option Nat
  | Ev.response_data i => some i
  | Ev.response_data_len i => some i
  | Ev.response_peek i => some i
  | _ => none

/-- Whether an event is a call of `select`. -/
def Ev.is_select : Ev → Bool
  | Ev.select _ => true
  | _ => false

/-- Whether an event is a `write` on the emulated socket. -/
def Ev.is_write : Ev → Bool
  | Ev.write _ _ _ => true
  | _ => false

/-- Whether an event is a `shutdown` of the emulated socket. -/
def Ev.is_shutdown : Ev → Bool
  | Ev.shutdown _ => true
  | _ => false

/-- The slots consumed by the successive `fuzz_send_next_response` calls. -/
def consumed_slots (evs : List Ev) : List Nat := evs.filterMap Ev.consumed_slot

/-- The slots written to the emulated socket, in order. -/
def written_slots (evs : List Ev) : List Nat := evs.filterMap Ev.written_slot

/-- The indices of all reads of the response table, in order. -/
def table_reads (evs : List Ev) : List Nat := evs.filterMap Ev.table_index

/-- Number of `fuzz_send_next_response` calls. -/
def send_calls (evs : List Ev) : Nat := evs.count Ev.fuzz_send_next_response

/-- The events that follow the first `shutdown` of a list. -/
def after_first_shutdown : List Ev → List Ev
  | [] => []
  | e :: es => if e.is_shutdown = true then es else after_first_shutdown es

/-- The bytes of "HELLO". -/
def hello : List uint8_t := [72, 69, 76, 76, 79]

/-- The response table whose only populated slot is slot 1, holding "HELLO". -/
def hello_table : Nat → FUZZ_RESPONSE := fun i => if i = 1 then some hello else none

/-- Whether an event is one of the calls that `LLVMFuzzerTestOneInput` itself
makes to a function of the harness. -/
def Ev.is_harness_call : Ev → Bool
  | Ev.fuzz_initialize_fuzz_data => true
  | Ev.fuzz_get_first_tlv => true
  | Ev.fuzz_get_next_tlv => true
  | Ev.fuzz_parse_tlv => true
  | Ev.fuzz_set_easy_options => true
  | Ev.fuzz_handle_transfer => true
  | Ev.fuzz_terminate_fuzz_data => true
  | _ => false

/-- The events of `n` passes through the TLV loop in which the parse
succeeds: the parse, then the fetch of the next TLV. -/
def parsed_ok : Nat → List Ev
  | 0 => []
  | n + 1 => Ev.fuzz_parse_tlv :: Ev.fuzz_get_next_tlv :: parsed_ok n

/-! ## Sample inputs -/

/-- A sample header: 6-byte raw TLV header, end-of-stream code 1, 11
responses. -/
def sample_header : Header where
  sizeof_TLV_RAW := 6
  TLV_RC_NO_MORE_TLVS := 1
  TLV_MAX_NUM_RESPONSES := 11
  FCHECK_rc := 255

/-- A pass in which `select` times out and nothing else happens. -/
def pass_timeout : IterOutcome where
  fdset_mc := 0
  select_rc := 0
  server_readable := false
  drain := 0
  write_ret := 0
  opens_socket := none

/-- A pass in which `select` reports one descriptor of the client ready, the
server descriptor not being among the ready ones. -/
def pass_client_ready : IterOutcome where
  fdset_mc := 0
  select_rc := 1
  server_readable := false
  drain := 0
  write_ret := 0
  opens_socket := none

/-- A pass in which `select` reports the server descriptor readable, the
client has sent one chunk, and `write` writes 5 bytes. -/
def pass_server_readable : IterOutcome where
  fdset_mc := 0
  select_rc := 1
  server_readable := true
  drain := 1
  write_ret := 5
  opens_socket := none

/-- A pass in which `select` times out and the engine step opens the socket
with descriptor 7. -/
def pass_connect : IterOutcome where
  fdset_mc := 0
  select_rc := 0
  server_readable := false
  drain := 0
  write_ret := 0
  opens_socket := some 7

/-- A session with "HELLO" in slot 1 and descriptor 7 open. -/
def hello_session : FUZZ_DATA :=
  { FUZZ_DATA.zeroed with
    easy := some 1, server_fd := 7, server_fd_state := FUZZ_SOCK_OPEN,
    responses := hello_table }

/-- A TLV stream without records, ended by code 1. -/
def stream_empty : TlvStream where
  records := []
  end_rc := 1
  end_rc_ne := by decide

/-- A record whose parse puts "HELLO" in slot 1 of the response table. -/
def record_hello : TlvRecord where
  rc := 0
  apply := fun f => { f with responses := hello_table }

/-- A record on which the parse fails with code 3. -/
def record_bad : TlvRecord where
  rc := 3
  apply := fun f => f

/-- A record whose parse succeeds and changes nothing. -/
def record_plain : TlvRecord where
  rc := 0
  apply := fun f => f

/-- A TLV stream of three records, the second of which fails to parse. -/
def stream_parse_fails : TlvStream where
  records := [record_hello, record_bad, record_plain]
  end_rc := 1
  end_rc_ne := by decide

/-- An outside where every call succeeds, the buffer holds no TLV, and the
transfer is over after one pass. -/
def sample_env : Env where
  easy_init := some 1
  setopt := fun _ => 0
  verbose := false
  slist_append := some 2
  tlv := fun _ _ => stream_empty
  engine := { running := [], final := pass_client_ready }

/-- As `sample_env`, with the stream whose second record fails to parse. -/
def sample_env_parse_fails : Env :=
  { sample_env with tlv := fun _ _ => stream_parse_fails }

/-- A buffer of six bytes. -/
def sample_data : List uint8_t := [0, 1, 0, 0, 0, 0]

/-- A transfer of two passes: the server descriptor is readable in the
first, the client alone is ready in the second, after which the engine has
nothing left to run. -/
def script_one_response : EngineScript where
  running := [pass_server_readable]
  final := pass_client_ready

/-- A transfer in which every `select` times out. -/
def script_stalled : EngineScript where
  running := [pass_timeout, pass_timeout]
  final := pass_timeout

/-! ## Byte conversions are big-endian decodings -/

theorem wrap_int_modEq (z : Int) : wrap_int z ≡ z [ZMOD 4294967296] := by
  unfold wrap_int Int.ModEq
  omega

theorem to_u32_eq (b : Fin 4 → uint8_t) :
    to_u32 b = (b 0).val * 2 ^ 24 + (b 1).val * 2 ^ 16 + (b 2).val * 2 ^ 8 + (b 3).val := by
  have h0 := (b 0).isLt
  have h1 := (b 1).isLt
  have h2 := (b 2).isLt
  have h3 := (b 3).isLt
  have hs : add_int (add_int (add_int (shl_int (b 0).val 24) (shl_int (b 1).val 16))
      (shl_int (b 2).val 8)) (b 3).val ≡
      ((b 0).val : Int) * 2 ^ 24 + (b 1).val * 2 ^ 16 + (b 2).val * 2 ^ 8 + (b 3).val
      [ZMOD 4294967296] :=
    (wrap_int_modEq _).trans (((wrap_int_modEq _).trans (((wrap_int_modEq _).trans
      ((wrap_int_modEq _).add (wrap_int_modEq _))).add (wrap_int_modEq _))).add
      (Int.ModEq.refl _))
  unfold to_u32
  simp only
  rw [hs.eq]
  norm_num
  omega

theorem to_u16_eq (b : Fin 2 → uint8_t) :
    to_u16 b = (b 0).val * 2 ^ 8 + (b 1).val := by
  have h0 := (b 0).isLt
  have h1 := (b 1).isLt
  simp only [to_u16, add_int, shl_int, wrap_int]
  norm_num
  omega

/-- C3: `to_u32` and `to_u16` are the exact big-endian values of their bytes,
for all bytes (also a first byte of 128 or more), and so each of them is
injective on byte sequences. -/
theorem to_u32_to_u16_big_endian :
    (∀ b : Fin 4 → uint8_t,
      to_u32 b = (b 0).val * 2 ^ 24 + (b 1).val * 2 ^ 16 + (b 2).val * 2 ^ 8 + (b 3).val) ∧
    (∀ b : Fin 2 → uint8_t, to_u16 b = (b 0).val * 2 ^ 8 + (b 1).val) ∧
    Function.Injective to_u32 ∧ Function.Injective to_u16 := by
  refine ⟨to_u32_eq, to_u16_eq, ?_, ?_⟩
  · intro a b hab
    rw [to_u32_eq, to_u32_eq] at hab
    have a0 := (a 0).isLt
    have a1 := (a 1).isLt
    have a2 := (a 2).isLt
    have a3 := (a 3).isLt
    have b0 := (b 0).isLt
    have b1 := (b 1).isLt
    have b2 := (b 2).isLt
    have b3 := (b 3).isLt
    funext i
    apply Fin.ext
    fin_cases i <;> simp <;> omega
  · intro a b hab
    rw [to_u16_eq, to_u16_eq] at hab
    have a0 := (a 0).isLt
    have a1 := (a 1).isLt
    have b0 := (b 0).isLt
    have b1 := (b 1).isLt
    funext i
    apply Fin.ext
    fin_cases i <;> simp <;> omega

/-! ## Teardown is idempotent -/

/-- What `fuzz_terminate_fuzz_data` leaves and releases, by cases on the fields. -/
theorem teardown_spec (fuzz : FUZZ_DATA) :
    ((fuzz_terminate_fuzz_data fuzz).1.postfields = none ∧
      (fuzz_terminate_fuzz_data fuzz).1.connect_to_list = none ∧
      (fuzz_terminate_fuzz_data fuzz).1.header_list = none ∧
      (fuzz_terminate_fuzz_data fuzz).1.mail_recipients_list = none ∧
      (fuzz_terminate_fuzz_data fuzz).1.mime = none ∧
      (fuzz_terminate_fuzz_data fuzz).1.easy = none ∧
      (fuzz_terminate_fuzz_data fuzz).1.server_fd_state = FUZZ_SOCK_CLOSED) ∧
    fuzz_terminate_fuzz_data (fuzz_terminate_fuzz_data fuzz).1 =
      ((fuzz_terminate_fuzz_data fuzz).1, []) ∧
    (fuzz_terminate_fuzz_data fuzz).2 =
      fuzz.postfields.toList.map Ev.free ++
      (if fuzz.server_fd_state = FUZZ_SOCK_OPEN ∨ fuzz.server_fd_state = FUZZ_SOCK_SHUTDOWN
        then [Ev.close fuzz.server_fd] else []) ++
      fuzz.connect_to_list.toList.map Ev.curl_slist_free_all ++
      fuzz.header_list.toList.map Ev.curl_slist_free_all ++
      fuzz.mail_recipients_list.toList.map Ev.curl_slist_free_all ++
      fuzz.mime.toList.map Ev.curl_mime_free ++
      fuzz.easy.toList.map Ev.curl_easy_cleanup := by
  obtain ⟨easy, sd, sl, fd, st, pf, cl, hl, ml, mi, rs, ri⟩ := fuzz
  cases easy <;> cases pf <;> cases cl <;> cases hl <;> cases ml <;> cases mi <;>
    cases st <;> simp [fuzz_terminate_fuzz_data, fuzz_free]

/-- C4: after `fuzz_terminate_fuzz_data` every owned field is NULL and the
socket is CLOSED; a second call releases nothing and changes nothing; the
first call releases each resource that was held once, in program order, the
descriptor being closed exactly when the socket was OPEN or SHUTDOWN. -/
theorem fuzz_terminate_fuzz_data_idempotent (fuzz : FUZZ_DATA) :
    ((fuzz_terminate_fuzz_data fuzz).1.postfields = none ∧
      (fuzz_terminate_fuzz_data fuzz).1.connect_to_list = none ∧
      (fuzz_terminate_fuzz_data fuzz).1.header_list = none ∧
      (fuzz_terminate_fuzz_data fuzz).1.mail_recipients_list = none ∧
      (fuzz_terminate_fuzz_data fuzz).1.mime = none ∧
      (fuzz_terminate_fuzz_data fuzz).1.easy = none ∧
      (fuzz_terminate_fuzz_data fuzz).1.server_fd_state = FUZZ_SOCK_CLOSED) ∧
    fuzz_terminate_fuzz_data (fuzz_terminate_fuzz_data fuzz).1 =
      ((fuzz_terminate_fuzz_data fuzz).1, []) ∧
    (fuzz_terminate_fuzz_data fuzz).2 =
      fuzz.postfields.toList.map Ev.free ++
      (if fuzz.server_fd_state = FUZZ_SOCK_OPEN ∨ fuzz.server_fd_state = FUZZ_SOCK_SHUTDOWN
        then [Ev.close fuzz.server_fd] else []) ++
      fuzz.connect_to_list.toList.map Ev.curl_slist_free_all ++
      fuzz.header_list.toList.map Ev.curl_slist_free_all ++
      fuzz.mail_recipients_list.toList.map Ev.curl_slist_free_all ++
      fuzz.mime.toList.map Ev.curl_mime_free ++
      fuzz.easy.toList.map Ev.curl_easy_cleanup :=
  teardown_spec fuzz

/-! ## The send call -/

theorem send_events_eq (h : Header) (o : IterOutcome) (fuzz : FUZZ_DATA) :
    (fuzz_send_next_response h o fuzz).events =
      List.replicate (o.drain + 1) (Ev.read fuzz.server_fd) ++
      [Ev.response_data fuzz.response_index, Ev.response_data_len fuzz.response_index] ++
      (match fuzz.responses fuzz.response_index with
        | some d => [Ev.write fuzz.server_fd fuzz.response_index d]
        | none => []) ++
      (if fuzz.response_index + 1 > h.TLV_MAX_NUM_RESPONSES then [Ev.shutdown fuzz.server_fd]
        else if fuzz.responses (fuzz.response_index + 1) = none then
          [Ev.response_peek (fuzz.response_index + 1), Ev.shutdown fuzz.server_fd]
        else [Ev.response_peek (fuzz.response_index + 1)]) := by
  unfold fuzz_send_next_response
  rcases hd : fuzz.responses fuzz.response_index with _ | d <;>
    simp only [] <;> split_ifs <;> simp [hd]

theorem send_fuzz_eq (h : Header) (o : IterOutcome) (fuzz : FUZZ_DATA) :
    (fuzz_send_next_response h o fuzz).fuzz =
      { fuzz with
        response_index := fuzz.response_index + 1
        server_fd_state :=
          if fuzz.response_index + 1 > h.TLV_MAX_NUM_RESPONSES ∨
            fuzz.responses (fuzz.response_index + 1) = none then FUZZ_SOCK_SHUTDOWN
          else fuzz.server_fd_state } := by
  unfold fuzz_send_next_response
  rcases hd : fuzz.responses fuzz.response_index with _ | d <;>
    simp only [] <;> split_ifs <;> simp_all <;> omega

theorem send_rc_eq (h : Header) (o : IterOutcome) (fuzz : FUZZ_DATA) :
    (fuzz_send_next_response h o fuzz).rc =
      match fuzz.responses fuzz.response_index with
      | some d => if o.write_ret ≠ (d.length : Int) then -1 else 0
      | none => 0 := by
  unfold fuzz_send_next_response
  rcases hd : fuzz.responses fuzz.response_index with _ | d <;>
    simp only [] <;> split_ifs <;> simp_all

theorem fuzz_open_socket_response_index (fd : Int) (fuzz : FUZZ_DATA) :
    (fuzz_open_socket fd fuzz).response_index = fuzz.response_index := by
  unfold fuzz_open_socket
  split <;> rfl

theorem send_response_index (h : Header) (o : IterOutcome) (fuzz : FUZZ_DATA) :
    (fuzz_send_next_response h o fuzz).fuzz.response_index = fuzz.response_index + 1 := by
  rw [send_fuzz_eq]

theorem send_consumed (h : Header) (o : IterOutcome) (fuzz : FUZZ_DATA) :
    consumed_slots (fuzz_send_next_response h o fuzz).events = [fuzz.response_index] := by
  rw [send_events_eq]
  rcases hd : fuzz.responses fuzz.response_index with _ | d <;> split_ifs <;>
    simp [consumed_slots, Ev.consumed_slot]

theorem send_written_sublist (h : Header) (o : IterOutcome) (fuzz : FUZZ_DATA) :
    (written_slots (fuzz_send_next_response h o fuzz).events).Sublist [fuzz.response_index] := by
  rw [send_events_eq]
  rcases hd : fuzz.responses fuzz.response_index with _ | d <;> split_ifs <;>
    simp [written_slots, Ev.written_slot]

theorem send_send_calls (h : Header) (o : IterOutcome) (fuzz : FUZZ_DATA) :
    send_calls (fuzz_send_next_response h o fuzz).events = 0 := by
  rw [send_events_eq]
  rcases hd : fuzz.responses fuzz.response_index with _ | d <;> split_ifs <;>
    simp [send_calls, List.count_replicate]

theorem consumed_slots_append (a b : List Ev) :
    consumed_slots (a ++ b) = consumed_slots a ++ consumed_slots b := by
  simp [consumed_slots]

theorem written_slots_append (a b : List Ev) :
    written_slots (a ++ b) = written_slots a ++ written_slots b := by
  simp [written_slots]

theorem table_reads_append (a b : List Ev) :
    table_reads (a ++ b) = table_reads a ++ table_reads b := by
  simp [table_reads]

theorem send_calls_append (a b : List Ev) :
    send_calls (a ++ b) = send_calls a + send_calls b := by
  simp [send_calls]

theorem curl_multi_perform_response_index (o : IterOutcome) (fuzz : FUZZ_DATA) :
    (curl_multi_perform o fuzz).response_index = fuzz.response_index := by
  unfold curl_multi_perform
  cases o.opens_socket <;> simp [fuzz_open_socket_response_index]

/-! ## The loop body and the loop -/

/-- The six ways through the loop body. -/
theorem transfer_body_cases (h : Header) (o : IterOutcome) (st : LoopState) :
    (o.fdset_mc ≠ CURLM_OK ∧
      transfer_body h o st =
        { ending := BodyEnd.break_fdset, state := { st with rc := -1 },
          events := [Ev.curl_multi_fdset] }) ∨
    (o.fdset_mc = CURLM_OK ∧ o.select_rc = -1 ∧
      transfer_body h o st =
        { ending := BodyEnd.break_select, state := { st with rc := o.select_rc },
          events := [Ev.curl_multi_fdset, Ev.select o.select_rc] }) ∨
    (o.fdset_mc = CURLM_OK ∧ o.select_rc = 0 ∧ st.double_timeout = 1 ∧
      transfer_body h o st =
        { ending := BodyEnd.break_double_timeout, state := { st with rc := o.select_rc },
          events := [Ev.curl_multi_fdset, Ev.select o.select_rc] }) ∨
    (o.fdset_mc = CURLM_OK ∧ o.select_rc ≠ -1 ∧ ¬ (o.select_rc = 0 ∧ st.double_timeout = 1) ∧
      st.fuzz.server_fd_state = FUZZ_SOCK_OPEN ∧ FD_ISSET_server o = true ∧
      (fuzz_send_next_response h o st.fuzz).rc ≠ 0 ∧
      transfer_body h o st =
        { ending := BodyEnd.break_send
          state :=
            { fuzz := (fuzz_send_next_response h o st.fuzz).fuzz
              rc := (fuzz_send_next_response h o st.fuzz).rc
              double_timeout := if o.select_rc = 0 then 1 else 0 }
          events := [Ev.curl_multi_fdset, Ev.select o.select_rc] ++
            Ev.fuzz_send_next_response :: (fuzz_send_next_response h o st.fuzz).events }) ∨
    (o.fdset_mc = CURLM_OK ∧ o.select_rc ≠ -1 ∧ ¬ (o.select_rc = 0 ∧ st.double_timeout = 1) ∧
      st.fuzz.server_fd_state = FUZZ_SOCK_OPEN ∧ FD_ISSET_server o = true ∧
      (fuzz_send_next_response h o st.fuzz).rc = 0 ∧
      transfer_body h o st =
        { ending := BodyEnd.at_while
          state :=
            { fuzz := curl_multi_perform o (fuzz_send_next_response h o st.fuzz).fuzz
              rc := (fuzz_send_next_response h o st.fuzz).rc
              double_timeout := if o.select_rc = 0 then 1 else 0 }
          events := [Ev.curl_multi_fdset, Ev.select o.select_rc] ++
            Ev.fuzz_send_next_response :: (fuzz_send_next_response h o st.fuzz).events ++
            [Ev.curl_multi_perform] }) ∨
    (o.fdset_mc = CURLM_OK ∧ o.select_rc ≠ -1 ∧ ¬ (o.select_rc = 0 ∧ st.double_timeout = 1) ∧
      ¬ (st.fuzz.server_fd_state = FUZZ_SOCK_OPEN ∧ FD_ISSET_server o = true) ∧
      transfer_body h o st =
        { ending := BodyEnd.at_while
          state :=
            { fuzz := curl_multi_perform o st.fuzz
              rc := o.select_rc
              double_timeout := if o.select_rc = 0 then 1 else 0 }
          events := [Ev.curl_multi_fdset, Ev.select o.select_rc, Ev.curl_multi_perform] }) := by
  unfold transfer_body
  by_cases h1 : o.fdset_mc ≠ CURLM_OK
  · left; simp [h1]
  · right
    have h1' : o.fdset_mc = CURLM_OK := not_not.mp h1
    by_cases h2 : o.select_rc = -1
    · left; simp [h1', h2]
    · right
      by_cases h3 : o.select_rc = 0 ∧ st.double_timeout = 1
      · left; simp [h1', h3.1, h3.2]
      · right
        by_cases h4 : st.fuzz.server_fd_state = FUZZ_SOCK_OPEN ∧ FD_ISSET_server o = true
        · by_cases h5 : (fuzz_send_next_response h o st.fuzz).rc ≠ 0
          · left
            refine ⟨h1', h2, h3, h4.1, h4.2, h5, ?_⟩
            simp [h1', h2, h3, h4.1, h4.2, h5]
          · right; left
            have h5' : (fuzz_send_next_response h o st.fuzz).rc = 0 := not_not.mp h5
            refine ⟨h1', h2, h3, h4.1, h4.2, h5', ?_⟩
            simp [h1', h2, h3, h4.1, h4.2, h5']
        · right; right
          refine ⟨h1', h2, h3, h4, ?_⟩
          simp [h1', h2, h3, h4]

/-- Index bookkeeping of one pass: the slots it consumes are those from the
index on, as many as it makes send calls, and it writes only slots that it
consumes. -/
theorem body_index (h : Header) (o : IterOutcome) (st : LoopState) :
    consumed_slots (transfer_body h o st).events =
        List.range' st.fuzz.response_index (send_calls (transfer_body h o st).events) ∧
      (transfer_body h o st).state.fuzz.response_index =
        st.fuzz.response_index + send_calls (transfer_body h o st).events ∧
      (written_slots (transfer_body h o st).events).Sublist
        (consumed_slots (transfer_body h o st).events) := by
  have hc := send_consumed h o st.fuzz
  have hw := send_written_sublist h o st.fuzz
  have hn := send_send_calls h o st.fuzz
  have hi := send_response_index h o st.fuzz
  have e1 : consumed_slots [Ev.curl_multi_fdset, Ev.select o.select_rc] = [] := rfl
  have e2 : written_slots [Ev.curl_multi_fdset, Ev.select o.select_rc] = [] := rfl
  have e3 : send_calls [Ev.curl_multi_fdset, Ev.select o.select_rc] = 0 := by
    simp [send_calls]
  have f1 : consumed_slots [Ev.curl_multi_perform] = [] := rfl
  have f2 : written_slots [Ev.curl_multi_perform] = [] := rfl
  have f3 : send_calls [Ev.curl_multi_perform] = 0 := by simp [send_calls]
  have g1 : ∀ l, consumed_slots (Ev.fuzz_send_next_response :: l) = consumed_slots l :=
    fun l => rfl
  have g2 : ∀ l, written_slots (Ev.fuzz_send_next_response :: l) = written_slots l :=
    fun l => rfl
  have g3 : ∀ l, send_calls (Ev.fuzz_send_next_response :: l) = send_calls l + 1 := by
    intro l; simp [send_calls]
  rcases transfer_body_cases h o st with
    ⟨_, hb⟩ | ⟨_, _, hb⟩ | ⟨_, _, _, hb⟩ | ⟨_, _, _, _, _, _, hb⟩ | ⟨_, _, _, _, _, _, hb⟩ |
    ⟨_, _, _, _, hb⟩
  · rw [hb]; simp [consumed_slots, written_slots, send_calls, Ev.consumed_slot, Ev.written_slot]
  · rw [hb]; simp [consumed_slots, written_slots, send_calls, Ev.consumed_slot, Ev.written_slot]
  · rw [hb]; simp [consumed_slots, written_slots, send_calls, Ev.consumed_slot, Ev.written_slot]
  · rw [hb]
    simp only [consumed_slots_append, written_slots_append, send_calls_append, e1, e2, e3,
      g1, g2, g3, hc, hn, hi, List.nil_append, Nat.zero_add]
    exact ⟨rfl, trivial, hw⟩
  · rw [hb]
    simp only [consumed_slots_append, written_slots_append, send_calls_append, e1, e2, e3,
      f1, f2, f3, g1, g2, g3, hc, hn, hi, List.nil_append, List.append_nil, Nat.zero_add,
      Nat.add_zero, curl_multi_perform_response_index]
    exact ⟨rfl, trivial, hw⟩
  · rw [hb]
    simp [consumed_slots, written_slots, send_calls, Ev.consumed_slot, Ev.written_slot,
      curl_multi_perform_response_index]

/-- Unfolding of the loop on a non-empty list of passes. -/
theorem transfer_loop_cons (h : Header) (final o : IterOutcome) (os : List IterOutcome)
    (st : LoopState) :
    transfer_loop h final (o :: os) st =
      if (transfer_body h o st).ending = BodyEnd.at_while then
        { transfer_loop h final os (transfer_body h o st).state with
          events := (transfer_body h o st).events ++
            (transfer_loop h final os (transfer_body h o st).state).events }
      else
        { rc := (transfer_body h o st).state.rc
          fuzz := (transfer_body h o st).state.fuzz
          events := (transfer_body h o st).events
          ending := (transfer_body h o st).ending } := by
  rw [transfer_loop]
  cases hb : (transfer_body h o st).ending <;> simp

/-- Induction over the passes of the loop: a relation between the state at
the head of a pass and the result of the loop from there holds when it
holds for a last pass and is carried over a pass that reaches the `while`
test. -/
theorem transfer_loop_rec (h : Header) (final : IterOutcome)
    (Q : LoopState → TransferResult → Prop)
    (hlast : ∀ o st, Q st
      { rc := (transfer_body h o st).state.rc
        fuzz := (transfer_body h o st).state.fuzz
        events := (transfer_body h o st).events
        ending := (transfer_body h o st).ending })
    (hstep : ∀ o st r, (transfer_body h o st).ending = BodyEnd.at_while →
      Q (transfer_body h o st).state r →
      Q st { r with events := (transfer_body h o st).events ++ r.events })
    (os : List IterOutcome) (st : LoopState) :
    Q st (transfer_loop h final os st) := by
  induction os generalizing st with
  | nil => exact hlast final st
  | cons o os ih =>
    rw [transfer_loop_cons]
    split_ifs with hb
    · exact hstep o st _ hb (ih _)
    · exact hlast o st

/-- Index bookkeeping of the whole loop. -/
theorem loop_index (h : Header) (final : IterOutcome) (os : List IterOutcome)
    (st : LoopState) :
    consumed_slots (transfer_loop h final os st).events =
        List.range' st.fuzz.response_index (send_calls (transfer_loop h final os st).events) ∧
      (transfer_loop h final os st).fuzz.response_index =
        st.fuzz.response_index + send_calls (transfer_loop h final os st).events ∧
      (written_slots (transfer_loop h final os st).events).Sublist
        (consumed_slots (transfer_loop h final os st).events) := by
  refine transfer_loop_rec h final
    (fun st r =>
      consumed_slots r.events = List.range' st.fuzz.response_index (send_calls r.events) ∧
      r.fuzz.response_index = st.fuzz.response_index + send_calls r.events ∧
      (written_slots r.events).Sublist (consumed_slots r.events)) ?_ ?_ os st
  · intro o st
    exact body_index h o st
  · intro o st r _ hr
    obtain ⟨b1, b2, b3⟩ := body_index h o st
    obtain ⟨r1, r2, r3⟩ := hr
    refine ⟨?_, ?_, ?_⟩
    · simp only [consumed_slots_append, send_calls_append, b1, r1, b2]
      rw [List.range'_append_1, Nat.add_comm (send_calls r.events)]
    · simp only [send_calls_append, r2, b2]
      omega
    · simp only [consumed_slots_append, written_slots_append]
      exact List.Sublist.append b3 r3

/-- The function `fuzz_handle_transfer` is the loop between the set-up and the clean-up
of the multi handle. -/
theorem fuzz_handle_transfer_eq (h : Header) (s : EngineScript) (fuzz : FUZZ_DATA) :
    fuzz_handle_transfer h s fuzz =
      { transfer_loop h s.final s.running
          { fuzz := { fuzz with response_index := 1 }, rc := 0, double_timeout := 0 } with
        events := [Ev.curl_multi_init, Ev.curl_multi_add_handle] ++
          (transfer_loop h s.final s.running
            { fuzz := { fuzz with response_index := 1 }, rc := 0, double_timeout := 0 }).events ++
          [Ev.curl_multi_remove_handle, Ev.curl_multi_cleanup] } := rfl

/-- C5: in every run of `fuzz_handle_transfer` the response index starts at 1,
each call of `fuzz_send_next_response` consumes the slot at the index and
advances the index by one whatever the write does, so the calls consume
slots 1, 2, 3, ... in this order, and the slots written form a strictly
ascending sequence (none twice, none after a higher one). -/
theorem response_index_monotone (h : Header) :
    (∀ (o : IterOutcome) (fuzz : FUZZ_DATA),
      consumed_slots (fuzz_send_next_response h o fuzz).events = [fuzz.response_index] ∧
      (written_slots (fuzz_send_next_response h o fuzz).events).Sublist
        [fuzz.response_index] ∧
      (fuzz_send_next_response h o fuzz).fuzz.response_index = fuzz.response_index + 1) ∧
    (∀ (s : EngineScript) (fuzz : FUZZ_DATA),
      consumed_slots (fuzz_handle_transfer h s fuzz).events =
        List.range' 1 (send_calls (fuzz_handle_transfer h s fuzz).events) ∧
      (fuzz_handle_transfer h s fuzz).fuzz.response_index =
        1 + send_calls (fuzz_handle_transfer h s fuzz).events ∧
      (written_slots (fuzz_handle_transfer h s fuzz).events).Sublist
        (consumed_slots (fuzz_handle_transfer h s fuzz).events) ∧
      (written_slots (fuzz_handle_transfer h s fuzz).events).Pairwise (· < ·)) := by
  refine ⟨fun o fuzz => ⟨send_consumed h o fuzz, send_written_sublist h o fuzz,
    send_response_index h o fuzz⟩, ?_⟩
  intro s fuzz
  obtain ⟨l1, l2, l3⟩ := loop_index h s.final s.running
    { fuzz := { fuzz with response_index := 1 }, rc := 0, double_timeout := 0 }
  rw [fuzz_handle_transfer_eq]
  have e1 : ∀ l : List Ev, consumed_slots ([Ev.curl_multi_init, Ev.curl_multi_add_handle] ++ l ++
      [Ev.curl_multi_remove_handle, Ev.curl_multi_cleanup]) = consumed_slots l := by
    intro l; simp [consumed_slots, Ev.consumed_slot]
  have e2 : ∀ l : List Ev, written_slots ([Ev.curl_multi_init, Ev.curl_multi_add_handle] ++ l ++
      [Ev.curl_multi_remove_handle, Ev.curl_multi_cleanup]) = written_slots l := by
    intro l; simp [written_slots, Ev.written_slot]
  have e3 : ∀ l : List Ev, send_calls ([Ev.curl_multi_init, Ev.curl_multi_add_handle] ++ l ++
      [Ev.curl_multi_remove_handle, Ev.curl_multi_cleanup]) = send_calls l := by
    intro l; simp [send_calls]
  simp only [e1, e2, e3]
  refine ⟨l1, l2, l3, ?_⟩
  have hs : (List.range' 1 (send_calls (transfer_loop h s.final s.running
      { fuzz := { fuzz with response_index := 1 }, rc := 0, double_timeout := 0 }).events)).Pairwise
      (· < ·) := List.pairwise_lt_range' 1 _
  rw [← l1] at hs
  exact List.Pairwise.sublist l3 hs

/-! ## The half-close -/

theorem after_first_shutdown_append (a b : List Ev) :
    after_first_shutdown (a ++ b) =
      if a.any Ev.is_shutdown = true then after_first_shutdown a ++ b
      else after_first_shutdown b := by
  induction a with
  | nil => simp [after_first_shutdown]
  | cons e es ih =>
    by_cases he : e.is_shutdown = true
    · simp [after_first_shutdown, he]
    · simp [after_first_shutdown, he, ih]

theorem mem_after_first_shutdown (pre post : List Ev) (fd : Int) :
    ∀ e ∈ post, e ∈ after_first_shutdown (pre ++ Ev.shutdown fd :: post) := by
  induction pre with
  | nil => intro e he; simpa [after_first_shutdown, Ev.is_shutdown] using he
  | cons x xs ih =>
    intro e he
    by_cases hx : x.is_shutdown = true
    · simp [after_first_shutdown, hx, he]
    · simpa [after_first_shutdown, hx] using ih e he

/-- Shape of the events of a send call: events that are no shutdown, then a
shutdown exactly when the advanced index is past the table or finds a NULL
slot. -/
theorem send_events_shape (h : Header) (o : IterOutcome) (fuzz : FUZZ_DATA) :
    ∃ pre : List Ev, (∀ e ∈ pre, e.is_shutdown = false) ∧
      (fuzz_send_next_response h o fuzz).events =
        pre ++ (if fuzz.response_index + 1 > h.TLV_MAX_NUM_RESPONSES ∨
          fuzz.responses (fuzz.response_index + 1) = none then [Ev.shutdown fuzz.server_fd]
          else []) := by
  rw [send_events_eq]
  rcases hd : fuzz.responses fuzz.response_index with _ | d
  · by_cases h1 : fuzz.response_index + 1 > h.TLV_MAX_NUM_RESPONSES
    · refine ⟨List.replicate (o.drain + 1) (Ev.read fuzz.server_fd) ++
        [Ev.response_data fuzz.response_index, Ev.response_data_len fuzz.response_index], ?_, ?_⟩
      · intro e he
        simp [List.mem_replicate] at he
        rcases he with he | he | he <;> simp [he, Ev.is_shutdown]
      · simp [h1]
    · by_cases h2 : fuzz.responses (fuzz.response_index + 1) = none
      · refine ⟨List.replicate (o.drain + 1) (Ev.read fuzz.server_fd) ++
          [Ev.response_data fuzz.response_index, Ev.response_data_len fuzz.response_index,
            Ev.response_peek (fuzz.response_index + 1)], ?_, ?_⟩
        · intro e he
          simp [List.mem_replicate] at he
          rcases he with he | he | he | he <;> simp [he, Ev.is_shutdown]
        · simp [h1, h2]
      · refine ⟨List.replicate (o.drain + 1) (Ev.read fuzz.server_fd) ++
          [Ev.response_data fuzz.response_index, Ev.response_data_len fuzz.response_index,
            Ev.response_peek (fuzz.response_index + 1)], ?_, ?_⟩
        · intro e he
          simp [List.mem_replicate] at he
          rcases he with he | he | he | he <;> simp [he, Ev.is_shutdown]
        · simp [h1, h2]
  · by_cases h1 : fuzz.response_index + 1 > h.TLV_MAX_NUM_RESPONSES
    · refine ⟨List.replicate (o.drain + 1) (Ev.read fuzz.server_fd) ++
        [Ev.response_data fuzz.response_index, Ev.response_data_len fuzz.response_index,
          Ev.write fuzz.server_fd fuzz.response_index d], ?_, ?_⟩
      · intro e he
        simp [List.mem_replicate] at he
        rcases he with he | he | he | he <;> simp [he, Ev.is_shutdown]
      · simp [h1]
    · by_cases h2 : fuzz.responses (fuzz.response_index + 1) = none
      · refine ⟨List.replicate (o.drain + 1) (Ev.read fuzz.server_fd) ++
          [Ev.response_data fuzz.response_index, Ev.response_data_len fuzz.response_index,
            Ev.write fuzz.server_fd fuzz.response_index d,
            Ev.response_peek (fuzz.response_index + 1)], ?_, ?_⟩
        · intro e he
          simp [List.mem_replicate] at he
          rcases he with he | he | he | he | he <;> simp [he, Ev.is_shutdown]
        · simp [h1, h2]
      · refine ⟨List.replicate (o.drain + 1) (Ev.read fuzz.server_fd) ++
          [Ev.response_data fuzz.response_index, Ev.response_data_len fuzz.response_index,
            Ev.write fuzz.server_fd fuzz.response_index d,
            Ev.response_peek (fuzz.response_index + 1)], ?_, ?_⟩
        · intro e he
          simp [List.mem_replicate] at he
          rcases he with he | he | he | he | he <;> simp [he, Ev.is_shutdown]
        · simp [h1, h2]

theorem curl_multi_perform_shutdown (o : IterOutcome) (fuzz : FUZZ_DATA)
    (hs : fuzz.server_fd_state = FUZZ_SOCK_SHUTDOWN) :
    (curl_multi_perform o fuzz).server_fd_state = FUZZ_SOCK_SHUTDOWN := by
  unfold curl_multi_perform
  cases o.opens_socket <;> simp [fuzz_open_socket, hs]

theorem any_shutdown_false (l : List Ev) (hl : ∀ e ∈ l, e.is_shutdown = false) :
    l.any Ev.is_shutdown = false := by
  simpa [List.any_eq_false] using hl

theorem countP_shutdown_zero (l : List Ev) (hl : ∀ e ∈ l, e.is_shutdown = false) :
    l.countP Ev.is_shutdown = 0 := by
  rw [List.countP_eq_zero]
  intro e he
  simp [hl e he]

theorem after_first_shutdown_none (l : List Ev) (hl : ∀ e ∈ l, e.is_shutdown = false) :
    after_first_shutdown l = [] := by
  induction l with
  | nil => rfl
  | cons x xs ih =>
    have hx : x.is_shutdown = false := hl x (List.mem_cons_self _ _)
    simp only [after_first_shutdown, hx]
    simpa using ih (fun e he => hl e (List.mem_cons_of_mem _ he))

/-- What one pass does about the half-close: once the socket is shut down a
pass neither writes nor shuts down; a pass that shuts down leaves the socket
in state SHUTDOWN, does so once, and writes nothing afterwards. -/
theorem body_halfclose (h : Header) (o : IterOutcome) (st : LoopState) :
    (st.fuzz.server_fd_state = FUZZ_SOCK_SHUTDOWN →
      (transfer_body h o st).state.fuzz.server_fd_state = FUZZ_SOCK_SHUTDOWN ∧
      ∀ e ∈ (transfer_body h o st).events, e.is_write = false ∧ e.is_shutdown = false) ∧
    ((transfer_body h o st).events.any Ev.is_shutdown = true →
      (transfer_body h o st).state.fuzz.server_fd_state = FUZZ_SOCK_SHUTDOWN) ∧
    (∀ e ∈ after_first_shutdown (transfer_body h o st).events,
      e.is_write = false ∧ e.is_shutdown = false) ∧
    (transfer_body h o st).events.countP Ev.is_shutdown ≤ 1 := by
  rcases transfer_body_cases h o st with
    ⟨_, hb⟩ | ⟨_, _, hb⟩ | ⟨_, _, _, hb⟩ | ⟨_, _, _, ho, _, _, hb⟩ | ⟨_, _, _, ho, _, _, hb⟩ |
    ⟨_, _, _, _, hb⟩
  · rw [hb]; simp [after_first_shutdown, Ev.is_shutdown, Ev.is_write]
  · rw [hb]; simp [after_first_shutdown, Ev.is_shutdown, Ev.is_write]
  · rw [hb]; simp [after_first_shutdown, Ev.is_shutdown, Ev.is_write]
  · obtain ⟨pre, hpre, hev⟩ := send_events_shape h o st.fuzz
    have hany := any_shutdown_false pre hpre
    have hcnt := countP_shutdown_zero pre hpre
    have hafs := after_first_shutdown_none pre hpre
    rw [hb]
    simp only [hev, send_fuzz_eq]
    refine ⟨fun hs => by simp [ho] at hs, ?_, ?_, ?_⟩
    · by_cases hc : st.fuzz.response_index + 1 > h.TLV_MAX_NUM_RESPONSES ∨
        st.fuzz.responses (st.fuzz.response_index + 1) = none
      · simp [hc]
      · simp [hc, Ev.is_shutdown, hany, hafs]
    · by_cases hc : st.fuzz.response_index + 1 > h.TLV_MAX_NUM_RESPONSES ∨
        st.fuzz.responses (st.fuzz.response_index + 1) = none
      · simp [hc, after_first_shutdown_append, after_first_shutdown, Ev.is_shutdown, hany, hafs]
      · simp [hc, after_first_shutdown_append, after_first_shutdown, Ev.is_shutdown, hany, hafs]
    · by_cases hc : st.fuzz.response_index + 1 > h.TLV_MAX_NUM_RESPONSES ∨
        st.fuzz.responses (st.fuzz.response_index + 1) = none
      · simp [hc, List.countP_append, List.countP_cons, Ev.is_shutdown, hcnt]
      · simp [hc, List.countP_append, List.countP_cons, Ev.is_shutdown, hcnt]
  · obtain ⟨pre, hpre, hev⟩ := send_events_shape h o st.fuzz
    have hany := any_shutdown_false pre hpre
    have hcnt := countP_shutdown_zero pre hpre
    have hafs := after_first_shutdown_none pre hpre
    rw [hb]
    simp only [hev, send_fuzz_eq]
    refine ⟨fun hs => by simp [ho] at hs, ?_, ?_, ?_⟩
    · by_cases hc : st.fuzz.response_index + 1 > h.TLV_MAX_NUM_RESPONSES ∨
        st.fuzz.responses (st.fuzz.response_index + 1) = none
      · intro _
        apply curl_multi_perform_shutdown
        simp [hc]
      · simp [hc, Ev.is_shutdown, hany, hafs]
    · by_cases hc : st.fuzz.response_index + 1 > h.TLV_MAX_NUM_RESPONSES ∨
        st.fuzz.responses (st.fuzz.response_index + 1) = none
      · simp [hc, after_first_shutdown_append, after_first_shutdown, Ev.is_shutdown, hany, hafs,
          Ev.is_write]
      · simp [hc, after_first_shutdown_append, after_first_shutdown, Ev.is_shutdown, hany, hafs]
    · by_cases hc : st.fuzz.response_index + 1 > h.TLV_MAX_NUM_RESPONSES ∨
        st.fuzz.responses (st.fuzz.response_index + 1) = none
      · simp [hc, List.countP_append, List.countP_cons, Ev.is_shutdown, hcnt]
      · simp [hc, List.countP_append, List.countP_cons, Ev.is_shutdown, hcnt]
  · rw [hb]
    refine ⟨fun hs => ⟨curl_multi_perform_shutdown o st.fuzz hs, ?_⟩, ?_, ?_, ?_⟩ <;>
      simp [after_first_shutdown, Ev.is_shutdown, Ev.is_write]

/-- The half-close over the whole loop. -/
theorem loop_halfclose (h : Header) (final : IterOutcome) (os : List IterOutcome)
    (st : LoopState) :
    (st.fuzz.server_fd_state = FUZZ_SOCK_SHUTDOWN →
      ∀ e ∈ (transfer_loop h final os st).events, e.is_write = false ∧ e.is_shutdown = false) ∧
    (∀ e ∈ after_first_shutdown (transfer_loop h final os st).events,
      e.is_write = false ∧ e.is_shutdown = false) ∧
    (transfer_loop h final os st).events.countP Ev.is_shutdown ≤ 1 := by
  refine transfer_loop_rec h final
    (fun st r =>
      (st.fuzz.server_fd_state = FUZZ_SOCK_SHUTDOWN →
        ∀ e ∈ r.events, e.is_write = false ∧ e.is_shutdown = false) ∧
      (∀ e ∈ after_first_shutdown r.events, e.is_write = false ∧ e.is_shutdown = false) ∧
      r.events.countP Ev.is_shutdown ≤ 1) ?_ ?_ os st
  · intro o st
    obtain ⟨b1, _, b3, b4⟩ := body_halfclose h o st
    exact ⟨fun hs => (b1 hs).2, b3, b4⟩
  · intro o st r _ hr
    obtain ⟨b1, b2, b3, b4⟩ := body_halfclose h o st
    obtain ⟨r1, r2, r3⟩ := hr
    refine ⟨?_, ?_, ?_⟩
    · intro hs e he
      rcases List.mem_append.mp he with he | he
      · exact (b1 hs).2 e he
      · exact r1 (b1 hs).1 e he
    · intro e he
      simp only [after_first_shutdown_append] at he
      split_ifs at he with hany
      · rcases List.mem_append.mp he with he | he
        · exact b3 e he
        · exact r1 (b2 hany) e he
      · exact r2 e he
    · simp only [List.countP_append]
      by_cases hany : (transfer_body h o st).events.any Ev.is_shutdown = true
      · have hq := r1 (b2 hany)
        have hz : r.events.countP Ev.is_shutdown = 0 :=
          countP_shutdown_zero _ (fun e he => (hq e he).2)
        omega
      · have hz : (transfer_body h o st).events.countP Ev.is_shutdown = 0 := by
          apply countP_shutdown_zero
          intro e he
          by_contra hne
          apply hany
          rw [List.any_eq_true]
          exact ⟨e, he, by simpa using hne⟩
        omega

theorem after_first_shutdown_frame (l : List Ev) :
    after_first_shutdown ([Ev.curl_multi_init, Ev.curl_multi_add_handle] ++ l ++
      [Ev.curl_multi_remove_handle, Ev.curl_multi_cleanup]) =
      if l.any Ev.is_shutdown = true then
        after_first_shutdown l ++ [Ev.curl_multi_remove_handle, Ev.curl_multi_cleanup]
      else [] := by
  rw [List.append_assoc, after_first_shutdown_append]
  simp only [List.any_cons, List.any_nil, Ev.is_shutdown, Bool.or_self, Bool.false_eq_true,
    if_false]
  rw [after_first_shutdown_append]
  split_ifs
  · rfl
  · simp [after_first_shutdown, Ev.is_shutdown]

/-- C6: a send call at index `i` shuts the socket down for writing exactly
when `i + 1` is past `TLV_MAX_NUM_RESPONSES` or slot `i + 1` is NULL, and
leaves the socket state alone otherwise; the loop makes send calls only
while the socket is OPEN, so a transfer shuts down at most once and writes
nothing after that; with "HELLO" in slot 1 alone the first send call
writes these 5 bytes and then shuts down. -/
theorem half_close_once (h : Header) :
    (∀ (o : IterOutcome) (fuzz : FUZZ_DATA),
      ((fuzz_send_next_response h o fuzz).events.any Ev.is_shutdown = true ↔
        (fuzz.response_index + 1 > h.TLV_MAX_NUM_RESPONSES ∨
          fuzz.responses (fuzz.response_index + 1) = none)) ∧
      (fuzz_send_next_response h o fuzz).fuzz.server_fd_state =
        (if fuzz.response_index + 1 > h.TLV_MAX_NUM_RESPONSES ∨
          fuzz.responses (fuzz.response_index + 1) = none then FUZZ_SOCK_SHUTDOWN
        else fuzz.server_fd_state)) ∧
    (∀ (o : IterOutcome) (st : LoopState),
      Ev.fuzz_send_next_response ∈ (transfer_body h o st).events →
        st.fuzz.server_fd_state = FUZZ_SOCK_OPEN) ∧
    (∀ (s : EngineScript) (fuzz : FUZZ_DATA),
      (fuzz_handle_transfer h s fuzz).events.countP Ev.is_shutdown ≤ 1 ∧
      ∀ (pre post : List Ev) (fd : Int),
        (fuzz_handle_transfer h s fuzz).events = pre ++ Ev.shutdown fd :: post →
        ∀ e ∈ post, e.is_write = false ∧ e.is_shutdown = false) ∧
    (∀ (o : IterOutcome) (fuzz : FUZZ_DATA),
      ((fuzz_send_next_response h o
          { fuzz with responses := hello_table, response_index := 1 }).events.filter
          (fun e => e.is_write || e.is_shutdown)) =
        [Ev.write fuzz.server_fd 1 hello, Ev.shutdown fuzz.server_fd] ∧
      (fuzz_send_next_response h o
          { fuzz with responses := hello_table, response_index := 1 }).fuzz.server_fd_state =
        FUZZ_SOCK_SHUTDOWN ∧
      hello.length = 5) := by
  refine ⟨?_, ?_, ?_, ?_⟩
  · intro o fuzz
    refine ⟨?_, by rw [send_fuzz_eq]⟩
    obtain ⟨pre, hpre, hev⟩ := send_events_shape h o fuzz
    have hany := any_shutdown_false pre hpre
    rw [hev]
    by_cases hc : fuzz.response_index + 1 > h.TLV_MAX_NUM_RESPONSES ∨
        fuzz.responses (fuzz.response_index + 1) = none
    · simp [hc, Ev.is_shutdown]
    · simp only [hc, if_false, List.append_nil, hany]
      simp
  · intro o st hmem
    rcases transfer_body_cases h o st with
      ⟨_, hb⟩ | ⟨_, _, hb⟩ | ⟨_, _, _, hb⟩ | ⟨_, _, _, ho, _, _, hb⟩ | ⟨_, _, _, ho, _, _, hb⟩ |
      ⟨_, _, _, _, hb⟩
    · rw [hb] at hmem; simp at hmem
    · rw [hb] at hmem; simp at hmem
    · rw [hb] at hmem; simp at hmem
    · exact ho
    · exact ho
    · rw [hb] at hmem; simp at hmem
  · intro s fuzz
    obtain ⟨_, l2, l3⟩ := loop_halfclose h s.final s.running
      { fuzz := { fuzz with response_index := 1 }, rc := 0, double_timeout := 0 }
    rw [fuzz_handle_transfer_eq]
    refine ⟨?_, ?_⟩
    · simpa [List.countP_append, List.countP_cons, Ev.is_shutdown] using l3
    · intro pre post fd heq e he
      have hm := mem_after_first_shutdown pre post fd e he
      rw [← heq] at hm
      simp only [after_first_shutdown_frame] at hm
      split_ifs at hm
      · rcases List.mem_append.mp hm with hm | hm
        · exact l2 e hm
        · simp at hm
          rcases hm with hm | hm <;> simp [hm, Ev.is_write, Ev.is_shutdown]
      · simp at hm
  · intro o fuzz
    refine ⟨?_, ?_, rfl⟩
    · rw [send_events_eq]
      by_cases h1 : 1 + 1 > h.TLV_MAX_NUM_RESPONSES
      · simp [hello_table, h1, List.filter_append, List.filter_replicate, Ev.is_write,
          Ev.is_shutdown]
      · simp [hello_table, h1, List.filter_append, List.filter_replicate, Ev.is_write,
          Ev.is_shutdown]
    · rw [send_fuzz_eq]
      simp [hello_table]

/-! ## Reads of the response table -/

theorem send_table_reads (h : Header) (o : IterOutcome) (fuzz : FUZZ_DATA) :
    table_reads (fuzz_send_next_response h o fuzz).events =
      [fuzz.response_index, fuzz.response_index] ++
        (if fuzz.response_index + 1 > h.TLV_MAX_NUM_RESPONSES then []
          else [fuzz.response_index + 1]) := by
  rw [send_events_eq]
  rcases hd : fuzz.responses fuzz.response_index with _ | d <;> split_ifs <;>
    simp [table_reads, Ev.table_index]

theorem curl_multi_perform_shutdown_iff (o : IterOutcome) (fuzz : FUZZ_DATA) :
    (curl_multi_perform o fuzz).server_fd_state = FUZZ_SOCK_SHUTDOWN ↔
      fuzz.server_fd_state = FUZZ_SOCK_SHUTDOWN := by
  unfold curl_multi_perform
  cases o.opens_socket
  · simp
  · simp only [fuzz_open_socket]
    split_ifs with hc
    · simp [hc]
    · simp

/-- One pass keeps the reads of the response table inside `1 ..
TLV_MAX_NUM_RESPONSES`, as long as the index is inside whenever the socket
is not shut down, and this is again so after the pass. -/
theorem body_table_reads (h : Header) (o : IterOutcome) (st : LoopState)
    (hinv : st.fuzz.server_fd_state ≠ FUZZ_SOCK_SHUTDOWN →
      1 ≤ st.fuzz.response_index ∧ st.fuzz.response_index ≤ h.TLV_MAX_NUM_RESPONSES) :
    (∀ i ∈ table_reads (transfer_body h o st).events, 1 ≤ i ∧ i ≤ h.TLV_MAX_NUM_RESPONSES) ∧
    ((transfer_body h o st).state.fuzz.server_fd_state ≠ FUZZ_SOCK_SHUTDOWN →
      1 ≤ (transfer_body h o st).state.fuzz.response_index ∧
      (transfer_body h o st).state.fuzz.response_index ≤ h.TLV_MAX_NUM_RESPONSES) := by
  have e1 : table_reads [Ev.curl_multi_fdset, Ev.select o.select_rc] = [] := rfl
  have f1 : table_reads [Ev.curl_multi_perform] = [] := rfl
  have g1 : ∀ l, table_reads (Ev.fuzz_send_next_response :: l) = table_reads l := fun l => rfl
  rcases transfer_body_cases h o st with
    ⟨_, hb⟩ | ⟨_, _, hb⟩ | ⟨_, _, _, hb⟩ | ⟨_, _, _, ho, _, _, hb⟩ | ⟨_, _, _, ho, _, _, hb⟩ |
    ⟨_, _, _, _, hb⟩
  · rw [hb]; exact ⟨by simp [table_reads, Ev.table_index], hinv⟩
  · rw [hb]; exact ⟨by simp [table_reads, Ev.table_index], hinv⟩
  · rw [hb]; exact ⟨by simp [table_reads, Ev.table_index], hinv⟩
  · have hi := hinv (by simp [ho])
    rw [hb]
    simp only [table_reads_append, e1, g1, send_table_reads, send_fuzz_eq, List.nil_append]
    refine ⟨?_, ?_⟩
    · intro i hmem
      split_ifs at hmem with hc
      · simp at hmem; omega
      · simp at hmem; omega
    · intro hns
      split_ifs at hns with hc
      · exact absurd rfl hns
      · simp only [not_or] at hc
        show 1 ≤ st.fuzz.response_index + 1 ∧
          st.fuzz.response_index + 1 ≤ h.TLV_MAX_NUM_RESPONSES
        omega
  · have hi := hinv (by simp [ho])
    rw [hb]
    simp only [table_reads_append, e1, f1, g1, send_table_reads, send_fuzz_eq, List.nil_append,
      List.append_nil, curl_multi_perform_response_index]
    refine ⟨?_, ?_⟩
    · intro i hmem
      split_ifs at hmem with hc
      · simp at hmem; omega
      · simp at hmem; omega
    · intro hns
      rw [Ne, curl_multi_perform_shutdown_iff] at hns
      split_ifs at hns with hc
      · exact absurd rfl hns
      · simp only [not_or] at hc
        show 1 ≤ st.fuzz.response_index + 1 ∧
          st.fuzz.response_index + 1 ≤ h.TLV_MAX_NUM_RESPONSES
        omega
  · rw [hb]
    refine ⟨by simp [table_reads, Ev.table_index], ?_⟩
    intro hns
    rw [Ne, curl_multi_perform_shutdown_iff] at hns
    simpa [curl_multi_perform_response_index] using hinv hns

theorem loop_table_reads (h : Header) (final : IterOutcome) (os : List IterOutcome)
    (st : LoopState) :
    (st.fuzz.server_fd_state ≠ FUZZ_SOCK_SHUTDOWN →
      1 ≤ st.fuzz.response_index ∧ st.fuzz.response_index ≤ h.TLV_MAX_NUM_RESPONSES) →
    ∀ i ∈ table_reads (transfer_loop h final os st).events,
      1 ≤ i ∧ i ≤ h.TLV_MAX_NUM_RESPONSES := by
  refine transfer_loop_rec h final
    (fun st r =>
      (st.fuzz.server_fd_state ≠ FUZZ_SOCK_SHUTDOWN →
        1 ≤ st.fuzz.response_index ∧ st.fuzz.response_index ≤ h.TLV_MAX_NUM_RESPONSES) →
      ∀ i ∈ table_reads r.events, 1 ≤ i ∧ i ≤ h.TLV_MAX_NUM_RESPONSES) ?_ ?_ os st
  · intro o st hinv
    exact (body_table_reads h o st hinv).1
  · intro o st r _ hr hinv i hmem
    obtain ⟨b1, b2⟩ := body_table_reads h o st hinv
    simp only [table_reads_append] at hmem
    rcases List.mem_append.mp hmem with hm | hm
    · exact b1 i hm
    · exact hr b2 i hm

/-- C10: when the table has at least one slot (`1 <= TLV_MAX_NUM_RESPONSES`),
every read of `fuzz->responses[...]` in a run of `fuzz_handle_transfer`, the
slot sent and the look-ahead alike, is at an index from 1 to
`TLV_MAX_NUM_RESPONSES`, for every table, session and sequence of answers. -/
theorem response_table_reads_in_range (h : Header) (hmax : 1 ≤ h.TLV_MAX_NUM_RESPONSES)
    (s : EngineScript) (fuzz : FUZZ_DATA) :
    ∀ i ∈ table_reads (fuzz_handle_transfer h s fuzz).events,
      1 ≤ i ∧ i ≤ h.TLV_MAX_NUM_RESPONSES := by
  intro i hmem
  rw [fuzz_handle_transfer_eq] at hmem
  have e : ∀ l : List Ev, table_reads ([Ev.curl_multi_init, Ev.curl_multi_add_handle] ++ l ++
      [Ev.curl_multi_remove_handle, Ev.curl_multi_cleanup]) = table_reads l := by
    intro l; simp [table_reads, Ev.table_index]
  simp only [e] at hmem
  exact loop_table_reads h s.final s.running _ (fun _ => ⟨le_refl 1, hmax⟩) i hmem

/-! ## Timeouts -/

theorem FD_ISSET_server_timeout (o : IterOutcome) (hs : o.select_rc = 0) :
    FD_ISSET_server o = false := by
  simp [FD_ISSET_server, hs]

/-- A timeout with the flag set leaves the loop right after `select`. -/
theorem body_timeout_second (h : Header) (o : IterOutcome) (st : LoopState)
    (hf : o.fdset_mc = CURLM_OK) (hs : o.select_rc = 0) (hd : st.double_timeout = 1) :
    transfer_body h o st =
      { ending := BodyEnd.break_double_timeout
        state := { st with rc := 0 }
        events := [Ev.curl_multi_fdset, Ev.select 0] } := by
  unfold transfer_body
  simp [hf, hs, hd]

/-- A timeout with the flag clear sets the flag, sends nothing and goes on to
the engine step. -/
theorem body_timeout_first (h : Header) (o : IterOutcome) (st : LoopState)
    (hf : o.fdset_mc = CURLM_OK) (hs : o.select_rc = 0) (hd : st.double_timeout ≠ 1) :
    transfer_body h o st =
      { ending := BodyEnd.at_while
        state := { fuzz := curl_multi_perform o st.fuzz, rc := 0, double_timeout := 1 }
        events := [Ev.curl_multi_fdset, Ev.select 0, Ev.curl_multi_perform] } := by
  unfold transfer_body
  simp [hf, hs, hd, FD_ISSET_server_timeout o hs]

/-- The flag after a pass that reaches the `while` test tells whether the
pass timed out. -/
theorem body_flag_after (h : Header) (o : IterOutcome) (st : LoopState)
    (he : (transfer_body h o st).ending = BodyEnd.at_while) :
    (transfer_body h o st).state.double_timeout = if o.select_rc = 0 then 1 else 0 := by
  rcases transfer_body_cases h o st with
    ⟨_, hb⟩ | ⟨_, _, hb⟩ | ⟨_, _, _, hb⟩ | ⟨_, _, _, _, _, _, hb⟩ | ⟨_, _, _, _, _, _, hb⟩ |
    ⟨_, _, _, _, hb⟩
  all_goals rw [hb] at he ⊢
  all_goals first | rfl | (simp at he)

/-- C7: of two consecutive passes whose `select` times out, the second leaves
the loop right after `select`, before any send and engine step; a timeout
in the pass after one with activity does not leave the loop and the engine
step is made; when every `select` times out and the engine keeps running,
a run makes two `select` calls and one `curl_multi_perform` call. -/
theorem double_timeout_termination (h : Header) :
    (∀ (o1 o2 : IterOutcome) (st : LoopState),
      o1.fdset_mc = CURLM_OK → o1.select_rc = 0 →
      (transfer_body h o1 st).ending = BodyEnd.at_while →
      o2.fdset_mc = CURLM_OK → o2.select_rc = 0 →
      (transfer_body h o2 (transfer_body h o1 st).state).ending =
          BodyEnd.break_double_timeout ∧
        (transfer_body h o2 (transfer_body h o1 st).state).events =
          [Ev.curl_multi_fdset, Ev.select 0]) ∧
    (∀ (final o1 : IterOutcome) (os : List IterOutcome) (st : LoopState),
      o1.fdset_mc = CURLM_OK → o1.select_rc = 0 →
      (transfer_body h o1 st).ending = BodyEnd.at_while →
      (os.headD final).fdset_mc = CURLM_OK → (os.headD final).select_rc = 0 →
      (transfer_loop h final (o1 :: os) st).ending = BodyEnd.break_double_timeout ∧
        (transfer_loop h final (o1 :: os) st).events =
          (transfer_body h o1 st).events ++ [Ev.curl_multi_fdset, Ev.select 0]) ∧
    (∀ (o1 o2 : IterOutcome) (st : LoopState),
      0 < o1.select_rc →
      (transfer_body h o1 st).ending = BodyEnd.at_while →
      o2.fdset_mc = CURLM_OK → o2.select_rc = 0 →
      (transfer_body h o2 (transfer_body h o1 st).state).ending = BodyEnd.at_while ∧
        (transfer_body h o2 (transfer_body h o1 st).state).events =
          [Ev.curl_multi_fdset, Ev.select 0, Ev.curl_multi_perform]) ∧
    (∀ (s : EngineScript) (fuzz : FUZZ_DATA),
      s.running ≠ [] →
      (∀ o ∈ s.running, o.fdset_mc = CURLM_OK ∧ o.select_rc = 0) →
      s.final.fdset_mc = CURLM_OK → s.final.select_rc = 0 →
      (fuzz_handle_transfer h s fuzz).events.countP Ev.is_select = 2 ∧
        (fuzz_handle_transfer h s fuzz).events.count Ev.curl_multi_perform = 1 ∧
        (fuzz_handle_transfer h s fuzz).ending = BodyEnd.break_double_timeout ∧
        (fuzz_handle_transfer h s fuzz).rc = 0) := by
  refine ⟨?_, ?_, ?_, ?_⟩
  · intro o1 o2 st hf1 hs1 he1 hf2 hs2
    have hd := body_flag_after h o1 st he1
    rw [if_pos hs1] at hd
    rw [body_timeout_second h o2 _ hf2 hs2 hd]
    exact ⟨rfl, rfl⟩
  · intro final o1 os st hf1 hs1 he1 hf2 hs2
    have hd := body_flag_after h o1 st he1
    rw [if_pos hs1] at hd
    rw [transfer_loop_cons, if_pos he1]
    cases os with
    | nil =>
      simp only [List.headD_nil] at hf2 hs2
      have hb := body_timeout_second h final _ hf2 hs2 hd
      simp [transfer_loop, hb]
    | cons o2 os =>
      simp only [List.headD_cons] at hf2 hs2
      have hb := body_timeout_second h o2 _ hf2 hs2 hd
      rw [transfer_loop_cons, hb]
      exact ⟨rfl, rfl⟩
  · intro o1 o2 st hp1 he1 hf2 hs2
    have hd := body_flag_after h o1 st he1
    have hne : o1.select_rc ≠ 0 := by omega
    rw [if_neg hne] at hd
    have hd1 : (transfer_body h o1 st).state.double_timeout ≠ 1 := by rw [hd]; decide
    rw [body_timeout_first h o2 _ hf2 hs2 hd1]
    exact ⟨rfl, rfl⟩
  · intro s fuzz hne hall hff hfs
    rw [fuzz_handle_transfer_eq]
    obtain ⟨running, final⟩ := s
    cases running with
    | nil => exact absurd rfl hne
    | cons o1 os =>
      have h1 := hall o1 (List.mem_cons_self _ _)
      have hb1 := body_timeout_first h o1
        { fuzz := { fuzz with response_index := 1 }, rc := 0, double_timeout := 0 }
        h1.1 h1.2 (show (0 : Int) ≠ 1 by decide)
      cases os with
      | nil =>
        simp only at hff hfs
        have hb2 := body_timeout_second h final
          { fuzz := curl_multi_perform o1 { fuzz with response_index := 1 }, rc := 0,
            double_timeout := 1 } hff hfs rfl
        simp only [transfer_loop_cons, hb1, transfer_loop, hb2]
        simp [Ev.is_select]
      | cons o2 os =>
        have h2 := hall o2 (by simp)
        have hb2 := body_timeout_second h o2
          { fuzz := curl_multi_perform o1 { fuzz with response_index := 1 }, rc := 0,
            double_timeout := 1 } h2.1 h2.2 rfl
        simp only [transfer_loop_cons, hb1, hb2]
        simp [Ev.is_select]

/-! ## Events of the parts of the entry point -/

theorem teardown_events_eq (fuzz : FUZZ_DATA) :
    (fuzz_terminate_fuzz_data fuzz).2 =
      fuzz.postfields.toList.map Ev.free ++
      (if fuzz.server_fd_state = FUZZ_SOCK_OPEN ∨ fuzz.server_fd_state = FUZZ_SOCK_SHUTDOWN
        then [Ev.close fuzz.server_fd] else []) ++
      fuzz.connect_to_list.toList.map Ev.curl_slist_free_all ++
      fuzz.header_list.toList.map Ev.curl_slist_free_all ++
      fuzz.mail_recipients_list.toList.map Ev.curl_slist_free_all ++
      fuzz.mime.toList.map Ev.curl_mime_free ++
      fuzz.easy.toList.map Ev.curl_easy_cleanup :=
  (teardown_spec fuzz).2.2

theorem teardown_no_harness_call (fuzz : FUZZ_DATA) :
    ∀ e ∈ (fuzz_terminate_fuzz_data fuzz).2, e.is_harness_call = false := by
  intro e he
  rw [teardown_events_eq] at he
  simp only [List.mem_append, List.mem_map, Option.mem_toList] at he
  rcases he with (((((he | he) | he) | he) | he) | he) | he
  · obtain ⟨p, _, rfl⟩ := he; rfl
  · split_ifs at he
    · simp at he; rw [he]; rfl
    · simp at he
  · obtain ⟨p, _, rfl⟩ := he; rfl
  · obtain ⟨p, _, rfl⟩ := he; rfl
  · obtain ⟨p, _, rfl⟩ := he; rfl
  · obtain ⟨p, _, rfl⟩ := he; rfl
  · obtain ⟨p, _, rfl⟩ := he; rfl

theorem init_no_harness_call (h : Header) (env : Env) (f : FUZZ_DATA) (data : List uint8_t)
    (n : Nat) :
    ∀ e ∈ (fuzz_initialize_fuzz_data h env f data n).events, e.is_harness_call = false := by
  intro e he
  unfold fuzz_initialize_fuzz_data at he
  simp only at he
  split_ifs at he <;> simp at he <;> rw [he] <;> rfl

theorem ftry_setopts_no_harness_call (env : Env) (opts : List CURLoption) :
    ∀ e ∈ (ftry_setopts env opts).2, e.is_harness_call = false := by
  induction opts with
  | nil => intro e he; simp [ftry_setopts] at he
  | cons opt opts ih =>
    intro e he
    simp only [ftry_setopts] at he
    split_ifs at he
    · simp at he; rw [he]; rfl
    · simp only [List.mem_cons] at he
      rcases he with he | he
      · rw [he]; rfl
      · exact ih e he

theorem set_easy_options_no_harness_call (env : Env) (f : FUZZ_DATA) :
    ∀ e ∈ (fuzz_set_easy_options env f).events, e.is_harness_call = false := by
  intro e he
  unfold fuzz_set_easy_options at he
  simp only at he
  split_ifs at he
  · exact ftry_setopts_no_harness_call env _ e he
  · simp only [List.mem_append, List.mem_cons, List.mem_singleton, List.not_mem_nil,
      or_false] at he
    rcases he with he | he | he
    · exact ftry_setopts_no_harness_call env _ e he
    · rw [he]; rfl
    · rw [he]; rfl

theorem accumulated_options_no_harness_call (f : FUZZ_DATA) :
    ∀ e ∈ accumulated_options f, e.is_harness_call = false := by
  intro e he
  unfold accumulated_options at he
  simp only [List.mem_append] at he
  rcases he with (he | he) | he <;> split_ifs at he <;> simp at he <;> rw [he] <;> rfl

theorem send_no_harness_call (h : Header) (o : IterOutcome) (f : FUZZ_DATA) :
    ∀ e ∈ (fuzz_send_next_response h o f).events, e.is_harness_call = false := by
  intro e he
  rw [send_events_eq] at he
  simp only [List.mem_append, List.mem_replicate] at he
  rcases he with ((he | he) | he) | he
  · rw [he.2]; rfl
  · simp at he; rcases he with he | he <;> rw [he] <;> rfl
  · rcases hd : f.responses f.response_index with _ | d
    · simp [hd] at he
    · simp [hd] at he; rw [he]; rfl
  · split_ifs at he <;> simp at he
    · rw [he]; rfl
    · rcases he with he | he <;> rw [he] <;> rfl
    · rw [he]; rfl

theorem body_no_harness_call (h : Header) (o : IterOutcome) (st : LoopState) :
    ∀ e ∈ (transfer_body h o st).events, e.is_harness_call = false := by
  intro e he
  have hsend := send_no_harness_call h o st.fuzz
  rcases transfer_body_cases h o st with
    ⟨_, hb⟩ | ⟨_, _, hb⟩ | ⟨_, _, _, hb⟩ | ⟨_, _, _, _, _, _, hb⟩ | ⟨_, _, _, _, _, _, hb⟩ |
    ⟨_, _, _, _, hb⟩
  all_goals rw [hb] at he
  all_goals simp only [List.mem_append, List.mem_cons, List.mem_singleton, List.not_mem_nil,
    or_false] at he
  · rw [he]; rfl
  · rcases he with he | he <;> rw [he] <;> rfl
  · rcases he with he | he <;> rw [he] <;> rfl
  · rcases he with (he | he) | he | he
    · rw [he]; rfl
    · rw [he]; rfl
    · rw [he]; rfl
    · exact hsend e he
  · rcases he with ((he | he) | he | he) | he
    · rw [he]; rfl
    · rw [he]; rfl
    · rw [he]; rfl
    · exact hsend e he
    · rw [he]; rfl
  · rcases he with he | he | he <;> rw [he] <;> rfl

theorem transfer_no_harness_call (h : Header) (s : EngineScript) (f : FUZZ_DATA) :
    ∀ e ∈ (fuzz_handle_transfer h s f).events, e.is_harness_call = false := by
  have hl : ∀ os st, ∀ e ∈ (transfer_loop h s.final os st).events, e.is_harness_call = false := by
    intro os st
    refine transfer_loop_rec h s.final
      (fun _ r => ∀ e ∈ r.events, e.is_harness_call = false) ?_ ?_ os st
    · intro o st
      exact body_no_harness_call h o st
    · intro o st r _ hr e he
      rcases List.mem_append.mp he with he | he
      · exact body_no_harness_call h o st e he
      · exact hr e he
  intro e he
  rw [fuzz_handle_transfer_eq] at he
  simp only [List.mem_append, List.mem_cons, List.mem_singleton, List.not_mem_nil,
    or_false] at he
  rcases he with ((he | he) | he) | he | he
  · rw [he]; rfl
  · rw [he]; rfl
  · exact hl _ _ e he
  · rw [he]; rfl
  · rw [he]; rfl

/-! ## The TLV loop -/

/-- When every record parses, the loop ends on the code of the last fetch,
after one parse and one further fetch for each record. -/
theorem tlv_loop_ok (e : Int) (ts : List TlvRecord) (f : FUZZ_DATA)
    (hok : ∀ t ∈ ts, t.rc = 0) :
    (tlv_loop e ts f).ending = TlvLoopEnd.fetched e ∧
      (tlv_loop e ts f).events = parsed_ok ts.length := by
  induction ts generalizing f with
  | nil => exact ⟨rfl, rfl⟩
  | cons t ts ih =>
    have ht : t.rc = 0 := hok t (List.mem_cons_self _ _)
    have ih' := ih (t.apply f) (fun x hx => hok x (List.mem_cons_of_mem _ hx))
    simp only [tlv_loop, ht, ne_eq, not_true_eq_false, if_false, List.length_cons, parsed_ok]
    exact ⟨ih'.1,
      congrArg (fun l => Ev.fuzz_parse_tlv :: Ev.fuzz_get_next_tlv :: l) ih'.2⟩

/-- When a record fails to parse after `pre` that parse, the loop is left by
the `goto` at that parse: the later records are neither fetched nor parsed. -/
theorem tlv_loop_fail (e : Int) (pre : List TlvRecord) (t : TlvRecord)
    (post : List TlvRecord) (f : FUZZ_DATA)
    (hok : ∀ p ∈ pre, p.rc = 0) (ht : t.rc ≠ 0) :
    (tlv_loop e (pre ++ t :: post) f).ending = TlvLoopEnd.parse_failed ∧
      (tlv_loop e (pre ++ t :: post) f).events = parsed_ok pre.length ++ [Ev.fuzz_parse_tlv] := by
  induction pre generalizing f with
  | nil => simp [tlv_loop, ht, parsed_ok]
  | cons p pre ih =>
    have hp : p.rc = 0 := hok p (List.mem_cons_self _ _)
    have ih' := ih (p.apply f) (fun x hx => hok x (List.mem_cons_of_mem _ hx))
    simp only [List.cons_append, tlv_loop, hp, ne_eq, not_true_eq_false, if_false,
      List.length_cons, parsed_ok]
    exact ⟨ih'.1,
      congrArg (fun l => Ev.fuzz_parse_tlv :: Ev.fuzz_get_next_tlv :: l) ih'.2⟩

/-- The first record that fails to parse, when there is one. -/
theorem exists_first_failure (ts : List TlvRecord) (hex : ∃ t ∈ ts, t.rc ≠ 0) :
    ∃ pre t post, ts = pre ++ t :: post ∧ (∀ p ∈ pre, p.rc = 0) ∧ t.rc ≠ 0 := by
  induction ts with
  | nil => obtain ⟨t, ht, _⟩ := hex; simp at ht
  | cons x xs ih =>
    by_cases hx : x.rc = 0
    · obtain ⟨t, ht, hne⟩ := hex
      have ht' : t ∈ xs := by
        rcases List.mem_cons.mp ht with h | h
        · rw [h] at hne; exact absurd hx hne
        · exact h
      obtain ⟨pre, t', post, he, hpre, hne'⟩ := ih ⟨t, ht', hne⟩
      refine ⟨x :: pre, t', post, by rw [he]; rfl, ?_, hne'⟩
      intro p hp
      rcases List.mem_cons.mp hp with h | h
      · rw [h]; exact hx
      · exact hpre p h
    · exact ⟨[], x, xs, rfl, by simp, hx⟩

theorem parsed_ok_calls (n : Nat) :
    ∀ e ∈ parsed_ok n, e = Ev.fuzz_parse_tlv ∨ e = Ev.fuzz_get_next_tlv := by
  induction n with
  | zero => intro e he; simp [parsed_ok] at he
  | succ n ih =>
    intro e he
    simp only [parsed_ok, List.mem_cons] at he
    rcases he with he | he | he
    · exact Or.inl he
    · exact Or.inr he
    · exact ih e he

theorem tlv_loop_calls (e : Int) (ts : List TlvRecord) (f : FUZZ_DATA) :
    ∀ x ∈ (tlv_loop e ts f).events, x = Ev.fuzz_parse_tlv ∨ x = Ev.fuzz_get_next_tlv := by
  induction ts generalizing f with
  | nil => intro x hx; simp [tlv_loop] at hx
  | cons t ts ih =>
    intro x hx
    simp only [tlv_loop] at hx
    split_ifs at hx
    · simp at hx; exact Or.inl hx
    · simp only [List.mem_cons] at hx
      rcases hx with hx | hx | hx
      · exact Or.inl hx
      · exact Or.inr hx
      · exact ih _ x hx

/-! ## The entry point -/

/-- The six ways to `EXIT_LABEL`. -/
theorem before_exit_label_cases (h : Header) (env : Env) (data : List uint8_t) (size : Nat) :
    (size < h.sizeof_TLV_RAW ∧
      before_exit_label h env data size = (FUZZ_DATA.zeroed, [])) ∨
    (¬ size < h.sizeof_TLV_RAW ∧ (init_phase h env data size).rc ≠ 0 ∧
      before_exit_label h env data size =
        ((init_phase h env data size).fuzz,
          Ev.fuzz_initialize_fuzz_data :: (init_phase h env data size).events)) ∨
    (¬ size < h.sizeof_TLV_RAW ∧ (init_phase h env data size).rc = 0 ∧
      (tlv_phase h env data size).ending = TlvLoopEnd.parse_failed ∧
      before_exit_label h env data size =
        ((tlv_phase h env data size).fuzz,
          Ev.fuzz_initialize_fuzz_data :: (init_phase h env data size).events ++
            Ev.fuzz_get_first_tlv :: (tlv_phase h env data size).events)) ∨
    (¬ size < h.sizeof_TLV_RAW ∧ (init_phase h env data size).rc = 0 ∧
      (∃ c, (tlv_phase h env data size).ending = TlvLoopEnd.fetched c ∧
        c ≠ h.TLV_RC_NO_MORE_TLVS) ∧
      before_exit_label h env data size =
        ((tlv_phase h env data size).fuzz,
          Ev.fuzz_initialize_fuzz_data :: (init_phase h env data size).events ++
            Ev.fuzz_get_first_tlv :: (tlv_phase h env data size).events)) ∨
    (¬ size < h.sizeof_TLV_RAW ∧ (init_phase h env data size).rc = 0 ∧
      (tlv_phase h env data size).ending = TlvLoopEnd.fetched h.TLV_RC_NO_MORE_TLVS ∧
      (options_phase h env data size).rc ≠ 0 ∧
      before_exit_label h env data size =
        ((options_phase h env data size).fuzz,
          Ev.fuzz_initialize_fuzz_data :: (init_phase h env data size).events ++
            Ev.fuzz_get_first_tlv :: (tlv_phase h env data size).events ++
            Ev.fuzz_set_easy_options :: (options_phase h env data size).events)) ∨
    (¬ size < h.sizeof_TLV_RAW ∧ (init_phase h env data size).rc = 0 ∧
      (tlv_phase h env data size).ending = TlvLoopEnd.fetched h.TLV_RC_NO_MORE_TLVS ∧
      (options_phase h env data size).rc = 0 ∧
      before_exit_label h env data size =
        ((transfer_phase h env data size).fuzz,
          Ev.fuzz_initialize_fuzz_data :: (init_phase h env data size).events ++
            Ev.fuzz_get_first_tlv :: (tlv_phase h env data size).events ++
            Ev.fuzz_set_easy_options :: (options_phase h env data size).events ++
            accumulated_options (options_phase h env data size).fuzz ++
            Ev.fuzz_handle_transfer :: (transfer_phase h env data size).events)) := by
  by_cases h1 : size < h.sizeof_TLV_RAW
  · left
    exact ⟨h1, by simp [before_exit_label, h1]⟩
  · right
    by_cases h2 : (init_phase h env data size).rc ≠ 0
    · left
      refine ⟨h1, h2, ?_⟩
      have h2' : (fuzz_initialize_fuzz_data h env FUZZ_DATA.zeroed data size).rc ≠ 0 := h2
      simp [before_exit_label, h1, h2', init_phase]
    · right
      have h2' : (init_phase h env data size).rc = 0 := not_not.mp h2
      have h2'' : (fuzz_initialize_fuzz_data h env FUZZ_DATA.zeroed data size).rc = 0 := h2'
      cases h3 : (tlv_phase h env data size).ending with
      | parse_failed =>
        left
        refine ⟨h1, h2', rfl, ?_⟩
        have h3' : (tlv_loop (env.tlv data size).end_rc (env.tlv data size).records
          (fuzz_initialize_fuzz_data h env FUZZ_DATA.zeroed data size).fuzz).ending =
            TlvLoopEnd.parse_failed := h3
        simp [before_exit_label, h1, h2'', h3', init_phase, tlv_phase]
      | fetched c =>
        right
        have h3' : (tlv_loop (env.tlv data size).end_rc (env.tlv data size).records
          (fuzz_initialize_fuzz_data h env FUZZ_DATA.zeroed data size).fuzz).ending =
            TlvLoopEnd.fetched c := h3
        by_cases h4 : c ≠ h.TLV_RC_NO_MORE_TLVS
        · left
          refine ⟨h1, h2', ⟨c, rfl, h4⟩, ?_⟩
          simp [before_exit_label, h1, h2'', h3', h4, init_phase, tlv_phase]
        · right
          have h4' : c = h.TLV_RC_NO_MORE_TLVS := not_not.mp h4
          subst h4'
          by_cases h5 : (options_phase h env data size).rc ≠ 0
          · left
            refine ⟨h1, h2', rfl, h5, ?_⟩
            have h5' : (fuzz_set_easy_options env
              (tlv_loop (env.tlv data size).end_rc (env.tlv data size).records
                (fuzz_initialize_fuzz_data h env FUZZ_DATA.zeroed data size).fuzz).fuzz).rc ≠ 0 :=
              h5
            simp [before_exit_label, h1, h2'', h3', h5', init_phase, tlv_phase, options_phase]
          · right
            have h5' : (options_phase h env data size).rc = 0 := not_not.mp h5
            refine ⟨h1, h2', rfl, h5', ?_⟩
            have h5'' : (fuzz_set_easy_options env
              (tlv_loop (env.tlv data size).end_rc (env.tlv data size).records
                (fuzz_initialize_fuzz_data h env FUZZ_DATA.zeroed data size).fuzz).fuzz).rc = 0 :=
              h5'
            simp [before_exit_label, h1, h2'', h3', h5'', init_phase, tlv_phase, options_phase,
              transfer_phase]

theorem not_mem_of_no_harness_call (l : List Ev) (hl : ∀ e ∈ l, e.is_harness_call = false)
    (x : Ev) (hx : x.is_harness_call = true) : x ∉ l := by
  intro hmem
  rw [hl x hmem] at hx
  exact Bool.noConfusion hx

theorem tlv_loop_not_mem (e : Int) (ts : List TlvRecord) (f : FUZZ_DATA) (x : Ev)
    (h1 : x ≠ Ev.fuzz_parse_tlv) (h2 : x ≠ Ev.fuzz_get_next_tlv) :
    x ∉ (tlv_loop e ts f).events := by
  intro hmem
  rcases tlv_loop_calls e ts f x hmem with h | h
  · exact h1 h
  · exact h2 h

/-- Before `EXIT_LABEL` the teardown is not called. -/
theorem before_exit_label_no_teardown (h : Header) (env : Env) (data : List uint8_t)
    (size : Nat) : Ev.fuzz_terminate_fuzz_data ∉ (before_exit_label h env data size).2 := by
  have hi := not_mem_of_no_harness_call _ (init_no_harness_call h env FUZZ_DATA.zeroed data size)
    Ev.fuzz_terminate_fuzz_data rfl
  have hl := tlv_loop_not_mem (env.tlv data size).end_rc (env.tlv data size).records
    (init_phase h env data size).fuzz Ev.fuzz_terminate_fuzz_data (by decide) (by decide)
  have ho := not_mem_of_no_harness_call _
    (set_easy_options_no_harness_call env (tlv_phase h env data size).fuzz)
    Ev.fuzz_terminate_fuzz_data rfl
  have ha := not_mem_of_no_harness_call _
    (accumulated_options_no_harness_call (options_phase h env data size).fuzz)
    Ev.fuzz_terminate_fuzz_data rfl
  have ht := not_mem_of_no_harness_call _
    (transfer_no_harness_call h env.engine (options_phase h env data size).fuzz)
    Ev.fuzz_terminate_fuzz_data rfl
  rcases before_exit_label_cases h env data size with
    ⟨_, hb⟩ | ⟨_, _, hb⟩ | ⟨_, _, _, hb⟩ | ⟨_, _, _, hb⟩ | ⟨_, _, _, _, hb⟩ | ⟨_, _, _, _, hb⟩
  all_goals rw [hb]
  all_goals simp only [List.mem_append, List.mem_cons, List.not_mem_nil, not_or, not_false_eq_true,
    true_and, and_true]
  all_goals trivial

/-- C1: for every buffer and all answers of the functions it calls,
`LLVMFuzzerTestOneInput` returns 0 and calls `fuzz_terminate_fuzz_data` once,
as the last thing it does: what follows the call in the events are the
releases made by the teardown itself. -/
theorem entry_point_returns_zero_and_tears_down_once (h : Header) (env : Env)
    (data : List uint8_t) (size : Nat) :
    (LLVMFuzzerTestOneInput h env data size).ret = 0 ∧
    (LLVMFuzzerTestOneInput h env data size).events.count Ev.fuzz_terminate_fuzz_data = 1 ∧
    ∃ pre : List Ev,
      (LLVMFuzzerTestOneInput h env data size).events =
        pre ++ Ev.fuzz_terminate_fuzz_data ::
          (fuzz_terminate_fuzz_data (LLVMFuzzerTestOneInput h env data size).at_teardown).2 ∧
      Ev.fuzz_terminate_fuzz_data ∉ pre ∧
      Ev.fuzz_terminate_fuzz_data ∉
        (fuzz_terminate_fuzz_data (LLVMFuzzerTestOneInput h env data size).at_teardown).2 := by
  have hb := before_exit_label_no_teardown h env data size
  have ht := not_mem_of_no_harness_call _
    (teardown_no_harness_call (before_exit_label h env data size).1)
    Ev.fuzz_terminate_fuzz_data rfl
  refine ⟨rfl, ?_, (before_exit_label h env data size).2, rfl, hb, ht⟩
  show ((before_exit_label h env data size).2 ++ Ev.fuzz_terminate_fuzz_data ::
    (fuzz_terminate_fuzz_data (before_exit_label h env data size).1).2).count
      Ev.fuzz_terminate_fuzz_data = 1
  rw [List.count_append, List.count_cons_self, List.count_eq_zero_of_not_mem hb,
    List.count_eq_zero_of_not_mem ht]

/-- C2: on a buffer shorter than one raw TLV header the run is the teardown
of the zeroed session and nothing else, whatever the bytes of the buffer
and the answers of the outside: no initialisation, no TLV fetch or parse,
no transfer. -/
theorem short_input_refused (h : Header) (env : Env) (data : List uint8_t) (size : Nat)
    (hsize : size < h.sizeof_TLV_RAW) :
    LLVMFuzzerTestOneInput h env data size =
      { ret := 0
        events := [Ev.fuzz_terminate_fuzz_data]
        at_teardown := FUZZ_DATA.zeroed
        final := FUZZ_DATA.zeroed } := by
  simp [LLVMFuzzerTestOneInput, before_exit_label, hsize, fuzz_terminate_fuzz_data, fuzz_free,
    FUZZ_DATA.zeroed]

/-- Witness for C2: a buffer of 3 bytes against a raw header of 6. -/
theorem short_input_refused_witness :
    (3 : Nat) < sample_header.sizeof_TLV_RAW ∧
    LLVMFuzzerTestOneInput sample_header sample_env [1, 2, 3] 3 =
      { ret := 0
        events := [Ev.fuzz_terminate_fuzz_data]
        at_teardown := FUZZ_DATA.zeroed
        final := FUZZ_DATA.zeroed } :=
  ⟨by decide, short_input_refused sample_header sample_env [1, 2, 3] 3 (by decide)⟩

/-- How the TLV loop of a run ends, from the records of the stream. -/
theorem tlv_phase_ending (h : Header) (env : Env) (data : List uint8_t) (size : Nat) :
    ((∀ t ∈ (env.tlv data size).records, t.rc = 0) →
      (tlv_phase h env data size).ending = TlvLoopEnd.fetched (env.tlv data size).end_rc ∧
      (tlv_phase h env data size).events = parsed_ok (env.tlv data size).records.length) ∧
    ((∃ t ∈ (env.tlv data size).records, t.rc ≠ 0) →
      (tlv_phase h env data size).ending = TlvLoopEnd.parse_failed) := by
  refine ⟨fun hok => tlv_loop_ok _ _ _ hok, fun hex => ?_⟩
  obtain ⟨pre, t, post, he, hpre, hne⟩ := exists_first_failure _ hex
  unfold tlv_phase
  rw [he]
  exact (tlv_loop_fail _ pre t post _ hpre hne).1

/-- The transfer is run exactly on the last of the six ways to `EXIT_LABEL`. -/
theorem transfer_called_iff (h : Header) (env : Env) (data : List uint8_t) (size : Nat) :
    Ev.fuzz_handle_transfer ∈ (LLVMFuzzerTestOneInput h env data size).events ↔
      (h.sizeof_TLV_RAW ≤ size ∧ (init_phase h env data size).rc = 0 ∧
        (tlv_phase h env data size).ending = TlvLoopEnd.fetched h.TLV_RC_NO_MORE_TLVS ∧
        (options_phase h env data size).rc = 0) := by
  have hi := not_mem_of_no_harness_call _ (init_no_harness_call h env FUZZ_DATA.zeroed data size)
    Ev.fuzz_handle_transfer rfl
  have hl := tlv_loop_not_mem (env.tlv data size).end_rc (env.tlv data size).records
    (init_phase h env data size).fuzz Ev.fuzz_handle_transfer (by decide) (by decide)
  have ho := not_mem_of_no_harness_call _
    (set_easy_options_no_harness_call env (tlv_phase h env data size).fuzz)
    Ev.fuzz_handle_transfer rfl
  have ht := not_mem_of_no_harness_call _
    (teardown_no_harness_call (before_exit_label h env data size).1)
    Ev.fuzz_handle_transfer rfl
  have hev : (LLVMFuzzerTestOneInput h env data size).events =
      (before_exit_label h env data size).2 ++ Ev.fuzz_terminate_fuzz_data ::
        (fuzz_terminate_fuzz_data (before_exit_label h env data size).1).2 := rfl
  rw [hev]
  simp only [List.mem_append, List.mem_cons, ht, or_false]
  have hne : Ev.fuzz_handle_transfer ≠ Ev.fuzz_terminate_fuzz_data := by decide
  simp only [hne, or_false]
  rcases before_exit_label_cases h env data size with
    ⟨h1, hb⟩ | ⟨h1, h2, hb⟩ | ⟨h1, h2, h3, hb⟩ | ⟨h1, h2, ⟨c, h3, hc⟩, hb⟩ |
    ⟨h1, h2, h3, h4, hb⟩ | ⟨h1, h2, h3, h4, hb⟩
  · rw [hb]
    constructor
    · intro hm; simp at hm
    · intro hc; omega
  · rw [hb]
    constructor
    · intro hm
      simp only [List.mem_cons] at hm
      rcases hm with hm | hm
      · exact absurd hm (by decide)
      · exact absurd hm hi
    · intro hc; exact absurd hc.2.1 h2
  · rw [hb]
    constructor
    · intro hm
      simp only [List.mem_cons, List.mem_append] at hm
      rcases hm with (hm | hm) | hm | hm
      · exact absurd hm (by decide)
      · exact absurd hm hi
      · exact absurd hm (by decide)
      · exact absurd hm hl
    · intro hc
      rw [h3] at hc
      exact absurd hc.2.2.1 (by simp)
  · rw [hb]
    constructor
    · intro hm
      simp only [List.mem_cons, List.mem_append] at hm
      rcases hm with (hm | hm) | hm | hm
      · exact absurd hm (by decide)
      · exact absurd hm hi
      · exact absurd hm (by decide)
      · exact absurd hm hl
    · intro hcc
      rw [h3] at hcc
      have := hcc.2.2.1
      simp only [TlvLoopEnd.fetched.injEq] at this
      exact absurd this hc
  · rw [hb]
    constructor
    · intro hm
      simp only [List.mem_cons, List.mem_append] at hm
      rcases hm with ((hm | hm) | hm | hm) | hm | hm
      · exact absurd hm (by decide)
      · exact absurd hm hi
      · exact absurd hm (by decide)
      · exact absurd hm hl
      · exact absurd hm (by decide)
      · exact absurd hm ho
    · intro hc; exact absurd hc.2.2.2 h4
  · rw [hb]
    constructor
    · intro _
      exact ⟨by omega, h2, h3, h4⟩
    · intro _
      simp

/-- A run whose TLV loop is left without the end-of-stream code goes from the
loop to `EXIT_LABEL`. -/
theorem before_exit_label_of_tlv_failure (h : Header) (env : Env) (data : List uint8_t)
    (size : Nat) (hsize : h.sizeof_TLV_RAW ≤ size) (hinit : (init_phase h env data size).rc = 0)
    (hend : (tlv_phase h env data size).ending ≠ TlvLoopEnd.fetched h.TLV_RC_NO_MORE_TLVS) :
    before_exit_label h env data size =
      ((tlv_phase h env data size).fuzz,
        Ev.fuzz_initialize_fuzz_data :: (init_phase h env data size).events ++
          Ev.fuzz_get_first_tlv :: (tlv_phase h env data size).events) := by
  rcases before_exit_label_cases h env data size with
    ⟨h1, _⟩ | ⟨_, h2, _⟩ | ⟨_, _, _, hb⟩ | ⟨_, _, _, hb⟩ | ⟨_, _, h3, _, _⟩ | ⟨_, _, h3, _, _⟩
  · omega
  · exact absurd hinit h2
  · exact hb
  · exact hb
  · exact absurd h3 hend
  · exact absurd h3 hend

/-- C8, as it holds: the transfer is run if and only if the buffer has the
size of a raw TLV header at least, the initialisation returned 0, every
record parsed with code 0, the fetches ended with `TLV_RC_NO_MORE_TLVS`, and
the options were set with code 0; after the first parse that returns
non-zero, and after a fetch that returns a code other than 0 and other than
`TLV_RC_NO_MORE_TLVS`, no further TLV is fetched or parsed and the teardown
follows at once; after the fetch that returns `TLV_RC_NO_MORE_TLVS` no
further TLV is fetched or parsed and the options are set next. -/
theorem decode_failures_abort (h : Header) (env : Env) (data : List uint8_t) (size : Nat) :
    (Ev.fuzz_handle_transfer ∈ (LLVMFuzzerTestOneInput h env data size).events ↔
      (h.sizeof_TLV_RAW ≤ size ∧ (init_phase h env data size).rc = 0 ∧
        (∀ t ∈ (env.tlv data size).records, t.rc = 0) ∧
        (env.tlv data size).end_rc = h.TLV_RC_NO_MORE_TLVS ∧
        (options_phase h env data size).rc = 0)) ∧
    (∀ (pre : List TlvRecord) (t : TlvRecord) (post : List TlvRecord),
      h.sizeof_TLV_RAW ≤ size → (init_phase h env data size).rc = 0 →
      (env.tlv data size).records = pre ++ t :: post → (∀ p ∈ pre, p.rc = 0) → t.rc ≠ 0 →
      (LLVMFuzzerTestOneInput h env data size).events =
        Ev.fuzz_initialize_fuzz_data :: (init_phase h env data size).events ++
          Ev.fuzz_get_first_tlv :: (parsed_ok pre.length ++ [Ev.fuzz_parse_tlv]) ++
          Ev.fuzz_terminate_fuzz_data ::
            (fuzz_terminate_fuzz_data (LLVMFuzzerTestOneInput h env data size).at_teardown).2) ∧
    (h.sizeof_TLV_RAW ≤ size → (init_phase h env data size).rc = 0 →
      (∀ t ∈ (env.tlv data size).records, t.rc = 0) →
      (env.tlv data size).end_rc ≠ h.TLV_RC_NO_MORE_TLVS →
      (LLVMFuzzerTestOneInput h env data size).events =
        Ev.fuzz_initialize_fuzz_data :: (init_phase h env data size).events ++
          Ev.fuzz_get_first_tlv :: parsed_ok (env.tlv data size).records.length ++
          Ev.fuzz_terminate_fuzz_data ::
            (fuzz_terminate_fuzz_data (LLVMFuzzerTestOneInput h env data size).at_teardown).2) ∧
    (h.sizeof_TLV_RAW ≤ size → (init_phase h env data size).rc = 0 →
      (∀ t ∈ (env.tlv data size).records, t.rc = 0) →
      (env.tlv data size).end_rc = h.TLV_RC_NO_MORE_TLVS →
      ∃ rest : List Ev,
        (LLVMFuzzerTestOneInput h env data size).events =
          Ev.fuzz_initialize_fuzz_data :: (init_phase h env data size).events ++
            Ev.fuzz_get_first_tlv :: parsed_ok (env.tlv data size).records.length ++
            Ev.fuzz_set_easy_options :: rest ∧
        Ev.fuzz_get_first_tlv ∉ rest ∧ Ev.fuzz_get_next_tlv ∉ rest ∧
        Ev.fuzz_parse_tlv ∉ rest) := by
  have hev : (LLVMFuzzerTestOneInput h env data size).events =
      (before_exit_label h env data size).2 ++ Ev.fuzz_terminate_fuzz_data ::
        (fuzz_terminate_fuzz_data (before_exit_label h env data size).1).2 := rfl
  have hat : (LLVMFuzzerTestOneInput h env data size).at_teardown =
      (before_exit_label h env data size).1 := rfl
  obtain ⟨hok, hfail⟩ := tlv_phase_ending h env data size
  refine ⟨?_, ?_, ?_, ?_⟩
  · rw [transfer_called_iff]
    constructor
    · rintro ⟨h1, h2, h3, h4⟩
      have hall : ∀ t ∈ (env.tlv data size).records, t.rc = 0 := by
        by_contra hcon
        push_neg at hcon
        rw [hfail hcon] at h3
        exact TlvLoopEnd.noConfusion h3
      have h3' := (hok hall).1
      rw [h3] at h3'
      simp only [TlvLoopEnd.fetched.injEq] at h3'
      exact ⟨h1, h2, hall, h3'.symm, h4⟩
    · rintro ⟨h1, h2, hall, h3, h4⟩
      refine ⟨h1, h2, ?_, h4⟩
      rw [(hok hall).1, h3]
  · intro pre t post hsize hinit hrec hpre ht
    have hl := tlv_loop_fail (env.tlv data size).end_rc pre t post
      (init_phase h env data size).fuzz hpre ht
    rw [← hrec] at hl
    have hend : (tlv_phase h env data size).ending ≠
        TlvLoopEnd.fetched h.TLV_RC_NO_MORE_TLVS := by
      show (tlv_loop _ _ _).ending ≠ _
      rw [hl.1]
      exact fun hc => TlvLoopEnd.noConfusion hc
    have hevl : (tlv_phase h env data size).events =
        parsed_ok pre.length ++ [Ev.fuzz_parse_tlv] := hl.2
    rw [hev, hat, before_exit_label_of_tlv_failure h env data size hsize hinit hend, hevl]
  · intro hsize hinit hall hne
    have hend : (tlv_phase h env data size).ending ≠
        TlvLoopEnd.fetched h.TLV_RC_NO_MORE_TLVS := by
      rw [(hok hall).1]
      intro hc
      simp only [TlvLoopEnd.fetched.injEq] at hc
      exact hne hc
    rw [hev, hat, before_exit_label_of_tlv_failure h env data size hsize hinit hend,
      (hok hall).2]
  · intro hsize hinit hall hno
    have h3 : (tlv_phase h env data size).ending = TlvLoopEnd.fetched h.TLV_RC_NO_MORE_TLVS := by
      rw [(hok hall).1, hno]
    have ho := set_easy_options_no_harness_call env (tlv_phase h env data size).fuzz
    have ha := accumulated_options_no_harness_call (options_phase h env data size).fuzz
    have ht := transfer_no_harness_call h env.engine (options_phase h env data size).fuzz
    have hd := teardown_no_harness_call (before_exit_label h env data size).1
    rcases before_exit_label_cases h env data size with
      ⟨h1, _⟩ | ⟨_, h2, _⟩ | ⟨_, _, h3', _⟩ | ⟨_, _, ⟨c, h3', hc⟩, _⟩ | ⟨_, _, _, _, hb⟩ |
      ⟨_, _, _, _, hb⟩
    · omega
    · exact absurd hinit h2
    · rw [h3] at h3'; exact TlvLoopEnd.noConfusion h3'
    · rw [h3] at h3'
      simp only [TlvLoopEnd.fetched.injEq] at h3'
      exact absurd h3'.symm hc
    · refine ⟨(options_phase h env data size).events ++ Ev.fuzz_terminate_fuzz_data ::
        (fuzz_terminate_fuzz_data (before_exit_label h env data size).1).2, ?_, ?_, ?_, ?_⟩
      · rw [hev, hb]
        simp [(hok hall).2]
      all_goals
        intro hm
        rcases List.mem_append.mp hm with hm | hm
        · exact absurd (ho _ hm) (by decide)
        · rcases List.mem_cons.mp hm with hm | hm
          · exact absurd hm (by decide)
          · exact absurd (hd _ hm) (by decide)
    · refine ⟨(options_phase h env data size).events ++
        accumulated_options (options_phase h env data size).fuzz ++
        Ev.fuzz_handle_transfer :: (transfer_phase h env data size).events ++
        Ev.fuzz_terminate_fuzz_data ::
          (fuzz_terminate_fuzz_data (before_exit_label h env data size).1).2, ?_, ?_, ?_, ?_⟩
      · rw [hev, hb]
        simp [(hok hall).2]
      all_goals
        intro hm
        simp only [List.mem_append, List.mem_cons] at hm
        rcases hm with ((hm | hm) | hm | hm) | hm | hm
        · exact absurd (ho _ hm) (by decide)
        · exact absurd (ha _ hm) (by decide)
        · exact absurd hm (by decide)
        · exact absurd (ht _ hm) (by decide)
        · exact absurd hm (by decide)
        · exact absurd (hd _ hm) (by decide)

/-! ## Runs on the sample inputs -/

/-- Witness for C8: on the sample stream whose second record fails to parse,
the run is the initialisation, the first fetch, one parse with the next
fetch, the failing parse, and the teardown. -/
theorem decode_failures_abort_witness :
    (LLVMFuzzerTestOneInput sample_header sample_env_parse_fails sample_data 6).events =
      Ev.fuzz_initialize_fuzz_data ::
        (init_phase sample_header sample_env_parse_fails sample_data 6).events ++
        Ev.fuzz_get_first_tlv :: (parsed_ok [record_hello].length ++ [Ev.fuzz_parse_tlv]) ++
        Ev.fuzz_terminate_fuzz_data ::
          (fuzz_terminate_fuzz_data
            (LLVMFuzzerTestOneInput sample_header sample_env_parse_fails sample_data
              6).at_teardown).2 :=
  (decode_failures_abort sample_header sample_env_parse_fails sample_data 6).2.1
    [record_hello] record_bad [record_plain] (by decide) rfl rfl
    (by intro p hp; rw [List.mem_singleton.mp hp]; rfl) (by decide)

/-- Counterexample for C8 as stated: on a buffer without TLVs the first fetch returns the end-of-stream code
1, which is not 0, and the run goes on to set the options and to run the
transfer before the teardown. -/
theorem decode_abort_counterexample :
    (sample_env.tlv sample_data 6).records = [] ∧
    (sample_env.tlv sample_data 6).end_rc = 1 ∧
    (sample_env.tlv sample_data 6).end_rc ≠ 0 ∧
    (LLVMFuzzerTestOneInput sample_header sample_env sample_data 6).events =
      [Ev.fuzz_initialize_fuzz_data, Ev.curl_easy_init, Ev.fuzz_get_first_tlv,
        Ev.fuzz_set_easy_options,
        Ev.curl_easy_setopt CURLOPT_OPENSOCKETFUNCTION,
        Ev.curl_easy_setopt CURLOPT_OPENSOCKETDATA,
        Ev.curl_easy_setopt CURLOPT_SOCKOPTFUNCTION,
        Ev.curl_easy_setopt CURLOPT_READFUNCTION,
        Ev.curl_easy_setopt CURLOPT_READDATA,
        Ev.curl_easy_setopt CURLOPT_WRITEFUNCTION,
        Ev.curl_easy_setopt CURLOPT_WRITEDATA,
        Ev.curl_easy_setopt CURLOPT_COOKIEJAR,
        Ev.curl_easy_setopt CURLOPT_TIMEOUT_MS,
        Ev.curl_slist_append,
        Ev.curl_easy_setopt CURLOPT_CONNECT_TO,
        Ev.fuzz_handle_transfer,
        Ev.curl_multi_init, Ev.curl_multi_add_handle, Ev.curl_multi_fdset, Ev.select 1,
        Ev.curl_multi_perform, Ev.curl_multi_remove_handle, Ev.curl_multi_cleanup,
        Ev.fuzz_terminate_fuzz_data, Ev.curl_slist_free_all 2, Ev.curl_easy_cleanup 1] :=
  ⟨rfl, rfl, by decide, by decide⟩

/-- C9, the run that breaks it: `select` reports one descriptor ready, no
response is due, and the engine step ends the transfer; the loop ends at
its `while` test, no `break` taken, and `fuzz_handle_transfer` returns the
1 that `select` left in `rc`. -/
theorem transfer_returns_select_count :
    (fuzz_handle_transfer sample_header { running := [], final := pass_client_ready }
      FUZZ_DATA.zeroed).rc = 1 ∧
    (fuzz_handle_transfer sample_header { running := [], final := pass_client_ready }
      FUZZ_DATA.zeroed).ending = BodyEnd.at_while ∧
    (fuzz_handle_transfer sample_header { running := [], final := pass_client_ready }
      FUZZ_DATA.zeroed).events =
      [Ev.curl_multi_init, Ev.curl_multi_add_handle, Ev.curl_multi_fdset, Ev.select 1,
        Ev.curl_multi_perform, Ev.curl_multi_remove_handle, Ev.curl_multi_cleanup] :=
  ⟨rfl, rfl, rfl⟩

/-- Witness for C10: with 11 slots and "HELLO" in slot 1, a transfer with one
send call reads the table at 1, 1 and 2. -/
theorem response_table_reads_in_range_witness :
    1 ≤ sample_header.TLV_MAX_NUM_RESPONSES ∧
    table_reads (fuzz_handle_transfer sample_header script_one_response hello_session).events =
      [1, 1, 2] ∧
    ∀ i ∈ table_reads (fuzz_handle_transfer sample_header script_one_response
        hello_session).events,
      1 ≤ i ∧ i ≤ sample_header.TLV_MAX_NUM_RESPONSES :=
  ⟨by decide, by decide,
    response_table_reads_in_range sample_header (by decide) script_one_response hello_session⟩

/-- Witness for C6: the sample transfer writes "HELLO", shuts down, and what
follows the shutdown is neither a write nor a shutdown. -/
theorem half_close_once_witness :
    (fuzz_handle_transfer sample_header script_one_response hello_session).events =
      [Ev.curl_multi_init, Ev.curl_multi_add_handle, Ev.curl_multi_fdset, Ev.select 1,
        Ev.fuzz_send_next_response, Ev.read 7, Ev.read 7, Ev.response_data 1,
        Ev.response_data_len 1, Ev.write 7 1 hello, Ev.response_peek 2] ++
      Ev.shutdown 7 ::
      [Ev.curl_multi_perform, Ev.curl_multi_fdset, Ev.select 1, Ev.curl_multi_perform,
        Ev.curl_multi_remove_handle, Ev.curl_multi_cleanup] ∧
    ∀ e ∈ [Ev.curl_multi_perform, Ev.curl_multi_fdset, Ev.select 1, Ev.curl_multi_perform,
        Ev.curl_multi_remove_handle, Ev.curl_multi_cleanup],
      e.is_write = false ∧ e.is_shutdown = false :=
  ⟨by decide,
    ((half_close_once sample_header).2.2.1 script_one_response hello_session).2
      [Ev.curl_multi_init, Ev.curl_multi_add_handle, Ev.curl_multi_fdset, Ev.select 1,
        Ev.fuzz_send_next_response, Ev.read 7, Ev.read 7, Ev.response_data 1,
        Ev.response_data_len 1, Ev.write 7 1 hello, Ev.response_peek 2]
      [Ev.curl_multi_perform, Ev.curl_multi_fdset, Ev.select 1, Ev.curl_multi_perform,
        Ev.curl_multi_remove_handle, Ev.curl_multi_cleanup] 7
      (by decide)⟩

/-- Witness for C7: the stalled sample transfer makes two `select` calls and
one engine step and leaves the loop on the double timeout. -/
theorem double_timeout_termination_witness :
    (fuzz_handle_transfer sample_header script_stalled FUZZ_DATA.zeroed).events =
      [Ev.curl_multi_init, Ev.curl_multi_add_handle, Ev.curl_multi_fdset, Ev.select 0,
        Ev.curl_multi_perform, Ev.curl_multi_fdset, Ev.select 0,
        Ev.curl_multi_remove_handle, Ev.curl_multi_cleanup] ∧
    (fuzz_handle_transfer sample_header script_stalled FUZZ_DATA.zeroed).events.countP
        Ev.is_select = 2 ∧
    (fuzz_handle_transfer sample_header script_stalled FUZZ_DATA.zeroed).events.count
        Ev.curl_multi_perform = 1 ∧
    (fuzz_handle_transfer sample_header script_stalled FUZZ_DATA.zeroed).ending =
        BodyEnd.break_double_timeout ∧
    (fuzz_handle_transfer sample_header script_stalled FUZZ_DATA.zeroed).rc = 0 :=
  ⟨by decide,
    (double_timeout_termination sample_header).2.2.2 script_stalled FUZZ_DATA.zeroed
      (List.cons_ne_nil _ _) (by decide) rfl rfl⟩

/-- Witness for C5: the sample transfer consumes slot 1 and writes slot 1. -/
theorem response_index_monotone_witness :
    consumed_slots (fuzz_handle_transfer sample_header script_one_response
      hello_session).events = [1] ∧
    written_slots (fuzz_handle_transfer sample_header script_one_response
      hello_session).events = [1] ∧
    (written_slots (fuzz_handle_transfer sample_header script_one_response
      hello_session).events).Pairwise (· < ·) :=
  ⟨by decide, by decide,
    ((response_index_monotone sample_header).2 script_one_response hello_session).2.2.2⟩

end CurlFuzzer
